import Mathlib

set_option maxRecDepth 100000

/-!
A verification development for the `Operand` web-scraping agent
(`main.py` and `experimental.py`).  The Python sources are shallowly
embedded: pure helpers become Lean functions, the mutable loop state
(conversation history, content store) is passed explicitly, and every
external effect (HTTP, browser, CSS selection, the remote language model)
is an oracle recorded in an `Env` structure.  Machine-level details with
no bearing on the verified properties (exact exception message texts,
the random uuid4 generator, the third-party BeautifulSoup/json libraries)
are modelled by executable stand-ins that preserve the behaviour the
code relies on; each such stand-in is documented at its definition.
-/

/-- Values of the JSON data model, as produced by `json.loads`.  Numbers
are kept as their source lexeme: no verified property inspects numeric
values, only strings, objects and arrays. -/
inductive JsonVal where
  | null : JsonVal
  | bool (b : Bool) : JsonVal
  | num (lexeme : String) : JsonVal
  | str (s : String) : JsonVal
  | arr (items : List JsonVal) : JsonVal
  | obj (fields : List (String × JsonVal)) : JsonVal

/-- The backquote character, written by code point. -/
def bq : Char := Char.ofNat 96

/-- Whitespace as recognised by Python `str.strip` (ASCII part) and by
the JSON grammar. -/
def isWsChar (c : Char) : Bool :=
  c = ' ' ∨ c = '\t' ∨ c = '\n' ∨ c = '\r' ∨ c = Char.ofNat 11 ∨ c = Char.ofNat 12

/-- Model of Python `str.strip()` on a character list. -/
def pyStripChars (cs : List Char) : List Char :=
  ((cs.dropWhile isWsChar).reverse.dropWhile isWsChar).reverse

/-- Model of Python `str.strip()`. -/
def pyStrip (s : String) : String := String.mk (pyStripChars s.data)

/-- Model of Python `str.startswith` for a single prefix. -/
def pyStartsWith (s pre : String) : Bool := pre.data.isPrefixOf s.data

/-- Model of Python `s[n:]` (drop the first `n` characters). -/
def pyDropStr (n : Nat) (s : String) : String := String.mk (s.data.drop n)

/-- Model of Python `str.find` for a single character: index of the first
occurrence, `-1` if absent. -/
def pyFindChar (s : String) (c : Char) : Int :=
  match s.data.findIdx? (fun d => d = c) with
  | some i => (i : Int)
  | none => -1

/-- Model of Python `str.rfind` for a single character: index of the last
occurrence, `-1` if absent. -/
def pyRFindChar (s : String) (c : Char) : Int :=
  match s.data.reverse.findIdx? (fun d => d = c) with
  | some i => ((s.data.length - 1 - i : Nat) : Int)
  | none => -1

/-- Normalisation of one Python slice index against a length `n`:
negative indices count from the end, and both ends are clamped. -/
def pySliceIdx (n : Nat) (i : Int) : Nat :=
  if i < 0 then (i + n).toNat else min i.toNat n

/-- Model of Python `s[a:b]` (no step). -/
def pySlice (s : String) (a b : Int) : String :=
  let n := s.data.length
  let lo := pySliceIdx n a
  let hi := pySliceIdx n b
  String.mk ((s.data.drop lo).take (hi - lo))

/-- Scanner for Python `response.split("```")`: segments are accumulated
in reverse in `acc`; on the three-backquote separator the current segment
is emitted and scanning restarts after it, exactly Python's leftmost
non-overlapping semantics. -/
def splitTicksAux : List Char → List Char → List (List Char)
  | [], acc => [acc.reverse]
  | c1 :: c2 :: c3 :: rest, acc =>
    if c1 = bq ∧ c2 = bq ∧ c3 = bq then acc.reverse :: splitTicksAux rest []
    else splitTicksAux (c2 :: c3 :: rest) (c1 :: acc)
  | c1 :: cs, acc => splitTicksAux cs (c1 :: acc)

/-- Model of Python `response.split("```")`. -/
def splitTicks (s : String) : List String :=
  (splitTicksAux s.data []).map String.mk

/-- Scanner for Python `response.split("```json")` (the seven-character
separator used by `main.py`), same scanning semantics as `splitTicksAux`. -/
def splitTicksJsonAux : List Char → List Char → List (List Char)
  | [], acc => [acc.reverse]
  | c1 :: c2 :: c3 :: c4 :: c5 :: c6 :: c7 :: rest, acc =>
    if c1 = bq ∧ c2 = bq ∧ c3 = bq ∧ c4 = 'j' ∧ c5 = 's' ∧ c6 = 'o' ∧ c7 = 'n' then
      acc.reverse :: splitTicksJsonAux rest []
    else splitTicksJsonAux (c2 :: c3 :: c4 :: c5 :: c6 :: c7 :: rest) (c1 :: acc)
  | c1 :: cs, acc => splitTicksJsonAux cs (c1 :: acc)

/-- Model of Python `response.split("```json")`. -/
def splitTicksJson (s : String) : List String :=
  (splitTicksJsonAux s.data []).map String.mk

/-- Single-character JSON string escapes (`\" \\ \/ \b \f \n \r \t`). -/
def escMap (c : Char) : Option Char :=
  if c = '"' then some '"'
  else if c = '\\' then some '\\'
  else if c = '/' then some '/'
  else if c = 'n' then some '\n'
  else if c = 't' then some '\t'
  else if c = 'r' then some '\r'
  else if c = 'b' then some (Char.ofNat 8)
  else if c = 'f' then some (Char.ofNat 12)
  else none

/-- Value of one hexadecimal digit, if any. -/
def hexVal (c : Char) : Option Nat :=
  if '0' ≤ c ∧ c ≤ '9' then some (c.toNat - '0'.toNat)
  else if 'a' ≤ c ∧ c ≤ 'f' then some (c.toNat - 'a'.toNat + 10)
  else if 'A' ≤ c ∧ c ≤ 'F' then some (c.toNat - 'A'.toNat + 10)
  else none

/-- Body of a JSON string literal, after the opening quote: returns the
decoded characters and the input remaining after the closing quote.
Surrogate-pair recombination of `\uXXXX` escapes is not modelled (no
verified property depends on it). -/
def parseStrLit : List Char → Option (List Char × List Char)
  | [] => none
  | c :: rest =>
    if c = '"' then some ([], rest)
    else if c = '\\' then
      match rest with
      | [] => none
      | e :: rest2 =>
        if e = 'u' then
          match rest2 with
          | h1 :: h2 :: h3 :: h4 :: rest3 =>
            match hexVal h1, hexVal h2, hexVal h3, hexVal h4 with
            | some a, some b, some c', some d =>
              (parseStrLit rest3).map
                (fun p => (Char.ofNat (((a * 16 + b) * 16 + c') * 16 + d) :: p.1, p.2))
            | _, _, _, _ => none
          | _ => none
        else
          match escMap e with
          | some ch => (parseStrLit rest2).map (fun p => (ch :: p.1, p.2))
          | none => none
    else (parseStrLit rest).map (fun p => (c :: p.1, p.2))

/-- Characters that may occur in a JSON number lexeme. -/
def isNumChar (c : Char) : Bool :=
  c.isDigit ∨ c = '-' ∨ c = '+' ∨ c = '.' ∨ c = 'e' ∨ c = 'E'

/-- Leading JSON number lexeme of the input, if the input starts with a
digit or a minus sign. -/
def parseNumLex (cs : List Char) : Option (String × List Char) :=
  match cs with
  | [] => none
  | c :: _ =>
    if c.isDigit ∨ c = '-' then
      some (String.mk (cs.takeWhile isNumChar), cs.dropWhile isNumChar)
    else none

/-- JSON (`json.loads` grammar) whitespace skipping. -/
def skipWs (cs : List Char) : List Char := cs.dropWhile isWsChar

mutual

/-- Recursive-descent JSON value parser.  The `fuel` argument is a
modelling artefact making the recursion structural; every recursive call
consumes at least one character, so any fuel above the input length is
enough. -/
def parseValue : Nat → List Char → Option (JsonVal × List Char)
  | 0, _ => none
  | fuel + 1, cs =>
    match skipWs cs with
    | [] => none
    | c :: rest =>
      if c = '"' then
        (parseStrLit rest).map (fun p => (.str (String.mk p.1), p.2))
      else if c = '{' then parseMembers fuel rest true []
      else if c = '[' then parseElems fuel rest true []
      else if c = 't' then
        if "rue".data.isPrefixOf rest then some (.bool true, rest.drop 3) else none
      else if c = 'f' then
        if "alse".data.isPrefixOf rest then some (.bool false, rest.drop 4) else none
      else if c = 'n' then
        if "ull".data.isPrefixOf rest then some (.null, rest.drop 3) else none
      else
        (parseNumLex (c :: rest)).map (fun p => (.num p.1, p.2))

/-- Members of a JSON object, after the opening brace; `first` records
whether no member has been read yet (so that an empty object is accepted
but a trailing comma is not). -/
def parseMembers : Nat → List Char → Bool → List (String × JsonVal) →
    Option (JsonVal × List Char)
  | 0, _, _, _ => none
  | fuel + 1, cs, first, acc =>
    match skipWs cs with
    | [] => none
    | c :: rest =>
      if c = '}' then
        if first then some (.obj acc.reverse, rest) else none
      else if c = '"' then
        match parseStrLit rest with
        | none => none
        | some (key, rest2) =>
          match skipWs rest2 with
          | [] => none
          | c2 :: rest3 =>
            if c2 = ':' then
              match parseValue fuel rest3 with
              | none => none
              | some (v, rest4) =>
                match skipWs rest4 with
                | [] => none
                | c3 :: rest5 =>
                  if c3 = ',' then
                    parseMembers fuel rest5 false ((String.mk key, v) :: acc)
                  else if c3 = '}' then
                    some (.obj (((String.mk key, v) :: acc)).reverse, rest5)
                  else none
            else none
      else none

/-- Elements of a JSON array, after the opening bracket. -/
def parseElems : Nat → List Char → Bool → List JsonVal →
    Option (JsonVal × List Char)
  | 0, _, _, _ => none
  | fuel + 1, cs, first, acc =>
    match skipWs cs with
    | [] => none
    | c :: rest =>
      if c = ']' then
        if first then some (.arr acc.reverse, rest) else none
      else
        match parseValue fuel (c :: rest) with
        | none => none
        | some (v, rest2) =>
          match skipWs rest2 with
          | [] => none
          | c2 :: rest3 =>
            if c2 = ',' then parseElems fuel rest3 false (v :: acc)
            else if c2 = ']' then some (.arr ((v :: acc)).reverse, rest3)
            else none

end

/-- Model of Python `json.loads`: parse one JSON value and require that
only whitespace remains. -/
def jsonLoads (s : String) : Option JsonVal :=
  match parseValue (s.data.length + 1) s.data with
  | some (v, rest) => if (skipWs rest).isEmpty then some v else none
  | none => none

example : jsonLoads "\x7b\"action\": \"fetch\", \"url\": \"http://x\"\x7d" =
    some (.obj [("action", .str "fetch"), ("url", .str "http://x")]) := rfl

example : jsonLoads "" = none := rfl

example : jsonLoads "[1, \"a\", true]" =
    some (.arr [.num "1", .str "a", .bool true]) := rfl

/-- Lookup of a key in a parsed JSON object.  Python dicts built by
`json.loads` keep the last of duplicate keys, hence the reverse search. -/
def lookupField (fields : List (String × JsonVal)) (k : String) : Option JsonVal :=
  (fields.reverse.find? (fun p => p.1 = k)).map Prod.snd

/-- Model of Python `value[k]` subscription on a parsed JSON value: a
missing key raises `KeyError` and a non-dict raises `TypeError`; the
`Except` message is the Python `str(e)` of the raised exception (key
errors render as the quoted key, exactly Python; other exception texts
are abbreviated stand-ins, and no verified property inspects them). -/
def pyGetItem (v : JsonVal) (k : String) : Except String JsonVal :=
  match v with
  | .obj fields =>
    match lookupField fields k with
    | some x => .ok x
    | none => .error ("\x27" ++ k ++ "\x27")
  | .arr _ => .error "list indices must be integers or slices, not str"
  | _ => .error "value is not subscriptable"

/-- Model of Python `value == "s"` for a parsed JSON value against a
string literal. -/
def jsonEqStr (v : JsonVal) (s : String) : Bool :=
  match v with
  | .str t => t = s
  | _ => false

/-- Model of Python truthiness (`if value:`) on a parsed JSON value.
Number truthiness is judged from the lexeme (any non-zero digit). -/
def jsonTruthy : JsonVal → Bool
  | .null => false
  | .bool b => b
  | .str s => !s.isEmpty
  | .num l => l.data.any (fun c => c.isDigit ∧ c ≠ '0')
  | .arr items => !items.isEmpty
  | .obj fields => !fields.isEmpty

/-- Model of Python `str(value)` for a parsed JSON value as interpolated
into f-strings.  Container reprs are abbreviated: no verified property
inspects the rendering of non-string values. -/
def pyStr : JsonVal → String
  | .null => "None"
  | .bool true => "True"
  | .bool false => "False"
  | .num l => l
  | .str s => s
  | .arr _ => "[...]"
  | .obj _ => "\x7b...\x7d"

/-- JSON escaping of one character, as `json.dumps` performs on members
of a string (ASCII control and non-ASCII escaping beyond the common
escapes is not modelled; no verified property depends on it). -/
def jsonEscapeChar (c : Char) : String :=
  if c = '"' then "\\\""
  else if c = '\\' then "\\\\"
  else if c = '\n' then "\\n"
  else if c = '\t' then "\\t"
  else if c = '\r' then "\\r"
  else String.mk [c]

/-- Model of `json.dumps` on a single string. -/
def jsonDumpsStr (s : String) : String :=
  "\"" ++ String.join (s.data.map jsonEscapeChar) ++ "\""

/-- Model of `json.dumps` on a list of strings (default separator
`", "`). -/
def jsonDumpsList (l : List String) : String :=
  "[" ++ String.intercalate ", " (l.map jsonDumpsStr) ++ "]"

example : jsonDumpsList ["CONTENT_NOT_FOUND"] = "[\"CONTENT_NOT_FOUND\"]" := rfl

/-! ## HTML document model

The Content Cleaner (`_clean_html`, identical in both source files)
drives BeautifulSoup, a third-party library.  It is modelled by an
explicit document-tree type together with an executable lenient parser:
the tree operations (`decompose` of unwanted tags, `get_text` with
newline separator and stripping, truncation) follow the source; the
parser is a faithful-in-spirit stand-in for `BeautifulSoup(html,
"html.parser")` that accepts every input.  Raw-text treatment of
script/style bodies and attribute quoting are simplified, which cannot
affect the verified properties: truncation bounds the output length for
every tree, and removal of tagged subtrees is proved for every tree. -/

/-- Nodes of the parsed HTML document. -/
inductive HNode where
  | text (s : String) : HNode
  | elem (tag : String) (children : List HNode) : HNode

/-- Subtree removal: drops every element whose tag is in `bad`, with its
whole subtree, exactly as the `find_all`/`decompose` loop does. -/
def removeTagsList (bad : List String) : List HNode → List HNode
  | [] => []
  | .text s :: ns => .text s :: removeTagsList bad ns
  | .elem t ch :: ns =>
    if bad.contains t then removeTagsList bad ns
    else .elem t (removeTagsList bad ch) :: removeTagsList bad ns

/-- Text fragments collected by `get_text(strip=True)`: each text node is
stripped and dropped when the strip leaves nothing. -/
def collectTexts : List HNode → List String
  | [] => []
  | .text s :: ns =>
    (if (pyStrip s).isEmpty then [] else [pyStrip s]) ++ collectTexts ns
  | .elem _ ch :: ns => collectTexts ch ++ collectTexts ns

/-- Text fragments of a forest, skipping every subtree rooted at a tag in
`bad`.  This is the provenance-aware reading of "text not originating
from a removed element". -/
def collectTextsAvoid (bad : List String) : List HNode → List String
  | [] => []
  | .text s :: ns =>
    (if (pyStrip s).isEmpty then [] else [pyStrip s]) ++ collectTextsAvoid bad ns
  | .elem t ch :: ns =>
    (if bad.contains t then [] else collectTextsAvoid bad ch) ++ collectTextsAvoid bad ns

/-- Alphanumeric characters accepted in a tag name. -/
def isNameChar (c : Char) : Bool := c.isAlpha ∨ c.isDigit

/-- Leading tag name of the input, lowercased as `html.parser` does. -/
def readName (cs : List Char) : String × List Char :=
  (String.mk ((cs.takeWhile isNameChar).map Char.toLower), cs.dropWhile isNameChar)

/-- Drop the input through the first `>` (inclusive). -/
def dropThroughGt (cs : List Char) : List Char :=
  (cs.dropWhile (fun c => c ≠ '>')).drop 1

/-- Drop the input through the first `-->` (inclusive), for comments. -/
def dropThroughCommentEnd : List Char → List Char
  | [] => []
  | c1 :: c2 :: c3 :: rest =>
    if c1 = '-' ∧ c2 = '-' ∧ c3 = '>' then rest
    else dropThroughCommentEnd (c2 :: c3 :: rest)
  | _ :: cs => dropThroughCommentEnd cs

/-- Void elements, which `html.parser` never leaves open. -/
def voidTags : List String :=
  ["br", "img", "meta", "link", "input", "hr", "area", "base", "col",
   "embed", "source", "track", "wbr"]

/-- Close the innermost open element: its collected children become an
element node appended to the parent level. -/
def closeFrames (tag : String) :
    List (String × List HNode) → List HNode → List (String × List HNode) × List HNode
  | [], current => ([], current)
  | (t, sib) :: stack, current =>
    if t = tag then (stack, .elem t current.reverse :: sib)
    else closeFrames tag stack (.elem t current.reverse :: sib)

/-- Close every open element at end of input. -/
def closeAll : List (String × List HNode) → List HNode → List HNode
  | [], current => current.reverse
  | (t, sib) :: stack, current => closeAll stack (.elem t current.reverse :: sib)

/-- Append a text node for a non-empty raw fragment. -/
def pushText (txt : List Char) (current : List HNode) : List HNode :=
  if txt.isEmpty then current else .text (String.mk txt) :: current

/-- Tokenising loop of the lenient HTML parser.  `stack` holds the open
elements (tag and the reversed sibling list of the enclosing level);
`current` is the reversed node list of the innermost level.  Every
iteration consumes at least one character, so fuel above the input
length never runs out. -/
def parseHtmlAux : Nat → List Char → List (String × List HNode) → List HNode → List HNode
  | 0, _, stack, current => closeAll stack current
  | _ + 1, [], stack, current => closeAll stack current
  | fuel + 1, c :: cs, stack, current =>
    if c = '<' then
      match cs with
      | '/' :: r2 =>
        let (nm, r3) := readName r2
        let r4 := dropThroughGt r3
        if stack.any (fun f => f.1 = nm) then
          let (stack', current') := closeFrames nm stack current
          parseHtmlAux fuel r4 stack' current'
        else parseHtmlAux fuel r4 stack current
      | '!' :: r2 =>
        if ['-', '-'].isPrefixOf r2 then
          parseHtmlAux fuel (dropThroughCommentEnd (r2.drop 2)) stack current
        else parseHtmlAux fuel (dropThroughGt r2) stack current
      | '?' :: r2 => parseHtmlAux fuel (dropThroughGt r2) stack current
      | d :: _ =>
        if d.isAlpha then
          let (nm, r3) := readName cs
          let attrs := r3.takeWhile (fun x => x ≠ '>')
          let r4 := dropThroughGt r3
          if attrs.getLast? = some '/' ∨ voidTags.contains nm then
            parseHtmlAux fuel r4 stack (.elem nm [] :: current)
          else parseHtmlAux fuel r4 ((nm, current) :: stack) []
        else parseHtmlAux fuel cs stack (pushText [c] current)
      | [] => closeAll stack (pushText [c] current)
    else
      let txt := (c :: cs).takeWhile (fun x => x ≠ '<')
      parseHtmlAux fuel ((c :: cs).dropWhile (fun x => x ≠ '<')) stack (pushText txt current)

/-- Model of `BeautifulSoup(html, "html.parser")`: a total, lenient
parse of arbitrary input into a document forest. -/
def parseHtml (s : String) : List HNode :=
  parseHtmlAux (s.data.length + 1) s.data [] []

/-- Tags removed by `_clean_html` in both source files. -/
def cleanedTags : List String :=
  ["script", "style", "svg", "nav", "footer", "header", "form"]

/-- Model of Python `text[:n]`. -/
def pyTake (n : Nat) (s : String) : String := String.mk (s.data.take n)

/-- The `max_html_length` attribute, `6000` in both source files. -/
def max_html_length : Nat := 6000

/-- Model of `_clean_html` (identical in `main.py` and
`experimental.py`): parse, decompose the unwanted tags, join the
stripped text with newlines, truncate. -/
def clean_html (html : String) : String :=
  pyTake max_html_length
    (String.intercalate "\n" (collectTexts (removeTagsList cleanedTags (parseHtml html))))

/-! ## Oracle environment and shared adapters -/

/-- One role-tagged conversation message. -/
structure Message where
  role : String
  content : String
deriving DecidableEq

/-- Oracles for every external effect, fixed for one run: the language
model endpoint (the `session.post` plus extraction of
`choices[0].message.content`, with transport or shape failures as the
error case), the HTTP client (`requests.get` with `raise_for_status`,
returning `response.text`), the headless browser session (`goto`,
optional `wait_for_selector`, `content`), and CSS selection
(`soup.select` with per-element `get_text`). -/
structure Env where
  llm : List Message → Except String String
  httpGet : String → Except String String
  browser : String → Option String → Except String String
  select : String → String → Except String (List String)

/-- Model of `fetch_website` (identical in both files): any failure of
the HTTP oracle is caught and classified; a non-string URL makes
`requests.get` raise inside the same `try`, also yielding the classified
string. -/
def fetch_website (env : Env) (url : JsonVal) : String :=
  match url with
  | .str u =>
    match env.httpGet u with
    | .ok body => clean_html body
    | .error e => "FETCH_ERROR: " ++ e
  | _ => "FETCH_ERROR: url must be a string"

/-- Model of `fetch_dynamic_content` (identical in both files).  The
`wait_for` argument is forwarded to the browser only when truthy, as the
`if wait_for:` guard does; a non-string truthy selector or URL raises
inside the `try` and is classified. -/
def fetch_dynamic_content (env : Env) (url : JsonVal) (wait_for : Option JsonVal) : String :=
  match url with
  | .str u =>
    match wait_for with
    | some wv =>
      if jsonTruthy wv then
        match wv with
        | .str ws =>
          match env.browser u (some ws) with
          | .ok content => clean_html content
          | .error e => "RENDER_ERROR: " ++ e
        | _ => "RENDER_ERROR: selector must be a string"
      else
        match env.browser u none with
        | .ok content => clean_html content
        | .error e => "RENDER_ERROR: " ++ e
    | none =>
      match env.browser u none with
      | .ok content => clean_html content
      | .error e => "RENDER_ERROR: " ++ e
  | _ => "RENDER_ERROR: url must be a string"

/-- Model of `extract_data` (identical in both files): selector or parse
failures are caught and returned as a one-element classified list. -/
def extract_data (env : Env) (html selector : JsonVal) : List String :=
  match html, selector with
  | .str h, .str sel =>
    match env.select h sel with
    | .ok items => items
    | .error e => ["EXTRACTION_ERROR: " ++ e]
  | _, _ => ["EXTRACTION_ERROR: invalid arguments"]

/-- Stand-in for the text of a `json.JSONDecodeError`; no verified
property inspects it. -/
def jsonErrMsg : String := "invalid JSON"

/-- Classified error message of `KeyError` or `IndexError` on a missing
list index, as Python renders it. -/
def indexErrMsg : String := "list index out of range"

/-! ## The `experimental.py` module -/

namespace ExpPy

/-- First decoding attempt of `_parse_llm_response`
(`experimental.py:124-129`): split on triple backquotes, take part 1,
strip a leading `json` tag line, strict-parse. -/
def fencedTry (response : String) : Except String JsonVal :=
  match (splitTicks response).get? 1 with
  | none => .error indexErrMsg
  | some part =>
    let body := if pyStartsWith part "json\n" then pyDropStr 5 part else part
    match jsonLoads body with
    | some v => .ok v
    | none => .error jsonErrMsg

/-- Fallback span of `_parse_llm_response` (`experimental.py:132-135`):
the slice from the first `{` to the last `}`, with Python's negative
index semantics when either is absent. -/
def braceSpan (response : String) : String :=
  pySlice response (pyFindChar response '{') (pyRFindChar response '}' + 1)

/-- Model of `_parse_llm_response` (`experimental.py:122-137`). -/
def parse_llm_response (response : String) : JsonVal :=
  match fencedTry response with
  | .ok v => v
  | .error e =>
    match jsonLoads (braceSpan response) with
    | some v => v
    | none => .obj [("action", .str "response"), ("content", .str ("PARSE_ERROR: " ++ e))]

/-- Mutable state of one `_run_scraping_operations` call: the
conversation history, the instance-level `content_store`, and the
counter of the fresh-key supply. -/
structure ScrapeState where
  conv : List Message
  store : List (String × String)
  nextId : Nat

/-- Key supply standing in for `str(uuid4())`: the code relies only on
distinct calls yielding distinct keys, which this deterministic supply
makes provable. -/
def mintKey (n : Nat) : String := "uuid-" ++ String.mk (List.replicate n 'x')

/-- Model of `_store_content` (`experimental.py:102-106`). -/
def store_content (st : ScrapeState) (content : String) : String × ScrapeState :=
  let cid := mintKey st.nextId
  (cid, { st with store := (cid, content) :: st.store, nextId := st.nextId + 1 })

/-- Model of `self.content_store.get(key)` for a string key. -/
def store_get (st : ScrapeState) (k : String) : Option String :=
  (st.store.find? (fun p => p.1 = k)).map Prod.snd

/-- Model of `self.content_store.get(key)` when the key comes from the
parsed action: unhashable keys raise, other non-string keys are absent
from the string-keyed store. -/
def store_get_json (st : ScrapeState) (k : JsonVal) : Except String (Option String) :=
  match k with
  | .str s => .ok (store_get st s)
  | .arr _ => .error "unhashable type: \x27list\x27"
  | .obj _ => .error "unhashable type: \x27dict\x27"
  | _ => .ok none

/-- Append one assistant message to the conversation. -/
def appendMsg (st : ScrapeState) (content : String) : ScrapeState :=
  { st with conv := st.conv ++ [⟨"assistant", content⟩] }

/-- Outcome of one loop iteration: a terminal returned value, or the
state carried to the next iteration. -/
inductive StepOut where
  | done (v : JsonVal)
  | cont (st : ScrapeState)

/-- True when the step outcome continues the loop. -/
def StepOut.isCont : StepOut → Bool
  | .done _ => false
  | .cont _ => true

/-- Dispatch of one parsed action (`experimental.py:164-205`): the
`if/elif` chain on `action["action"]`, with any exception on the way
(missing keys, unhashable store keys) caught by the loop's handler and
classified as `AGENT_ERROR`. -/
def dispatch_action (env : Env) (action : JsonVal) (st : ScrapeState) : StepOut :=
  match pyGetItem action "action" with
  | .error e => .done (.str ("AGENT_ERROR: " ++ e))
  | .ok tag =>
    if jsonEqStr tag "response" then
      match pyGetItem action "content" with
      | .error e => .done (.str ("AGENT_ERROR: " ++ e))
      | .ok c => .done c
    else if jsonEqStr tag "fetch" then
      match pyGetItem action "url" with
      | .error e => .done (.str ("AGENT_ERROR: " ++ e))
      | .ok u =>
        let result := fetch_website env u
        let (cid, st') := store_content st result
        .cont (appendMsg st' ("FETCHED:" ++ cid ++ "|" ++ pyStr u))
    else if jsonEqStr tag "render" then
      match pyGetItem action "url" with
      | .error e => .done (.str ("AGENT_ERROR: " ++ e))
      | .ok u =>
        let result := fetch_dynamic_content env u (lookupField
          (match action with | .obj fs => fs | _ => []) "wait_for")
        let (cid, st') := store_content st result
        .cont (appendMsg st' ("RENDERED:" ++ cid ++ "|" ++ pyStr u))
    else if jsonEqStr tag "extract" then
      match pyGetItem action "content_id" with
      | .error e => .done (.str ("AGENT_ERROR: " ++ e))
      | .ok k =>
        match store_get_json st k with
        | .error e => .done (.str ("AGENT_ERROR: " ++ e))
        | .ok content =>
          match content with
          | some c =>
            if c.isEmpty then
              .cont (appendMsg st ("EXTRACTED:" ++ jsonDumpsList ["CONTENT_NOT_FOUND"]))
            else
              match pyGetItem action "selector" with
              | .error e => .done (.str ("AGENT_ERROR: " ++ e))
              | .ok sel =>
                .cont (appendMsg st
                  ("EXTRACTED:" ++ jsonDumpsList (extract_data env (.str c) sel)))
          | none =>
            .cont (appendMsg st ("EXTRACTED:" ++ jsonDumpsList ["CONTENT_NOT_FOUND"]))
    else .done (.str "ERROR: Invalid action requested")

/-- One iteration of the loop body (`experimental.py:151-205`): call the
model on the full conversation (transport or response-shape failures are
caught and classified), decode the reply, dispatch. -/
def scrape_step (env : Env) (st : ScrapeState) : StepOut :=
  match env.llm st.conv with
  | .error e => .done (.str ("AGENT_ERROR: " ++ e))
  | .ok reply => dispatch_action env (parse_llm_response reply) st

/-- The bounded `for` loop of `_run_scraping_operations`: `fuel` is the
remaining iteration budget and the second component counts executed
iterations; exhausted fuel yields the `MAX_STEPS_REACHED` result. -/
def run_loop (env : Env) : Nat → Nat → ScrapeState → JsonVal × Nat
  | 0, steps, _ => (.str "MAX_STEPS_REACHED: Processing limit exceeded", steps)
  | fuel + 1, steps, st =>
    match scrape_step env st with
    | .done v => (v, steps + 1)
    | .cont st' => run_loop env fuel (steps + 1) st'

/-- The `max_steps` constant (`experimental.py:149`). -/
def max_steps : Nat := 5

/-- The system prompt seeded into the conversation
(`experimental.py:229-284`). -/
def GROQ_SYSTEM_PROMPT : String :=
  "\nYou are a senior web scraping agent powered by Groq\x27s LLaMA 3 70B. Your task is to systematically:\n\n1. Analyze user requests\n2. Determine required data sources\n3. Execute appropriate actions\n4. Validate results\n5. Return structured data\n\n**Available Actions (JSON format only):**\n- Fetch static content: \n```json\n\x7b\"action\": \"fetch\", \"url\": \"<target_url>\"\x7d\n```\n- Render dynamic content: \n```json\n\x7b\"action\": \"render\", \"url\": \"<target_url>\", \"wait_for\": \"<css_selector>\"\x7d\n```\n- Extract data: \n```json\n\x7b\n  \"action\": \"extract\",\n  \"content_id\": \"<CONTENT_REF_FROM_FETCH/RENDER>\", \n  \"selector\": \"<css_selector>\"\n\x7d\n```\n- Final response: \n```json\n\x7b\"action\": \"response\", \"content\": \"<final_answer>\"\x7d\n```\n\n**Content Reference Format:**\nAfter fetch/render operations, you\x27ll receive a content ID reference like:\n\"FETCHED:UUID|URL\" - Use UUID in extraction requests\n\n**Workflow Rules:**\n1. Always start with basic fetch before rendering\n2. Verify content contains target data elements\n3. Use precise CSS selectors (classes > tags)\n4. Reference content IDs for extraction\n5. Validate extracted data format\n6. Retry with alternatives on failure\n\n\n**Ethical Guidelines:**\n- Respect robots.txt\n- Add 2s delay between requests\n- Never scrape personal data\n- Honor website terms of service\n\n**Response Protocol:**\n- Use only JSON-formatted code blocks for actions\n- Include detailed error diagnostics\n- Maintain chain of thought reasoning\n- Validate all extracted data\n"

/-- The seeded conversation and empty store
(`experimental.py:141-147`). -/
def init_state (user_query : String) : ScrapeState :=
  ⟨[⟨"system", GROQ_SYSTEM_PROMPT⟩, ⟨"user", user_query⟩], [], 0⟩

/-- Model of `_run_scraping_operations` (`experimental.py:139-207`),
returning the Python function's value. -/
def run_scraping_operations (env : Env) (user_query : String) : JsonVal :=
  (run_loop env max_steps 0 (init_state user_query)).1

/-- Number of loop iterations executed by `_run_scraping_operations`. -/
def run_scraping_steps (env : Env) (user_query : String) : Nat :=
  (run_loop env max_steps 0 (init_state user_query)).2

/-- The prefixes of `_is_error` (`experimental.py:209-214`). -/
def error_prefixes : List String :=
  ["FETCH_ERROR", "RENDER_ERROR", "EXTRACTION_ERROR", "AGENT_ERROR",
   "MAX_STEPS_REACHED", "PARSE_ERROR"]

/-- Model of `_is_error`. -/
def is_error (result : String) : Bool :=
  error_prefixes.any (fun p => pyStartsWith result p)

/-- The formatting system prompt (`experimental.py:286-312`). -/
def FORMATTING_SYSTEM_PROMPT : String :=
  "\nYou are an expert data formatter with exceptional skills in presenting technical information clearly. Your task is to transform raw scraped data into polished, user-friendly output.\n\n**Formatting Rules:**\n1. Start with an emoji that matches the content theme\n2. Use Markdown-style headers and lists\n3. Highlight key numbers/statistics in **bold**\n4. Maintain original data accuracy\n5. Add context from the original query\n6. Include data freshness indication if available\n7. Use clean, modern formatting\n\n**Example Input:**\nRaw data: [\"$61,432.50\", \"2024-04-15\", \"CoinDesk\"]\n\n**Example Output:**\nBitcoin Price Update (via CoinDesk)\n-------------------------------------\n**Current Price:** $61,432.50  \n**Updated:** April 15, 2024  \n\nThis price reflects the latest market data...\n\n---\n\nAlways end with a source attribution and update timestamp when available.\n"

/-- The user prompt built by `_format_output` (`experimental.py:68-83`). -/
def format_prompt (raw_data original_query : String) : String :=
  "\n        Original user request: " ++ original_query ++
  "\n        \n        Raw scraped data:\n        " ++ raw_data ++
  "\n        \n        Please transform this into a clean, human-readable format with:\n        - Clear section headings\n        - Bullet points or numbered lists\n        - Proper formatting for numbers/dates\n        - Source attribution\n        - Emoji decorations\n        - Concise summary\n        \n        Avoid technical jargon and maintain accuracy.\n        "

/-- Model of `_format_output` (`experimental.py:66-100`): one further
model call through the same session; any transport or shape failure is
an uncaught exception, surfaced as the error case. -/
def format_output (env : Env) (raw_data original_query : String) : Except String String :=
  env.llm [⟨"system", FORMATTING_SYSTEM_PROMPT⟩,
           ⟨"user", format_prompt raw_data original_query⟩]

/-- Model of `execute_agent_loop` (`experimental.py:216-227`).  The
result is the returned dict; the error case is an exception escaping the
function (it has no handler of its own): either `_is_error` applied to a
non-string raw result, or a failing `_format_output` call. -/
def execute_agent_loop (env : Env) (user_query : String) :
    Except String (List (String × JsonVal)) :=
  let raw := run_scraping_operations env user_query
  match raw with
  | .str s =>
    if is_error s then .ok [("error", .str s)]
    else
      match format_output env s user_query with
      | .ok f => .ok [("raw_data", .str s), ("formatted", .str f)]
      | .error e => .error e
  | _ => .error "AttributeError: startswith"

end ExpPy

/-! ## The `main.py` module -/

namespace MainPy

/-- First decoding attempt of `_parse_llm_response` (`main.py:78-80`):
`response.split("```json")[1].split("```")[0].strip()`, then strict
parse. -/
def fencedTry (response : String) : Except String JsonVal :=
  match (splitTicksJson response).get? 1 with
  | none => .error indexErrMsg
  | some part =>
    let body := pyStrip ((splitTicks part).headD "")
    match jsonLoads body with
    | some v => .ok v
    | none => .error jsonErrMsg

/-- Model of `_parse_llm_response` (`main.py:76-82`): on failure, the
raw reply becomes the content of a response-shaped object. -/
def parse_llm_response (response : String) : JsonVal :=
  match fencedTry response with
  | .ok v => v
  | .error _ => .obj [("action", .str "response"), ("content", .str response)]

/-- Outcome of one loop iteration of `main.py`'s loop, whose only state
is the conversation history. -/
inductive StepOut where
  | done (v : JsonVal)
  | cont (conv : List Message)

/-- True when the step outcome continues the loop. -/
def StepOut.isCont : StepOut → Bool
  | .done _ => false
  | .cont _ => true

/-- Dispatch of one parsed action (`main.py:109-143`). -/
def dispatch_action (env : Env) (action : JsonVal) (conv : List Message) : StepOut :=
  match pyGetItem action "action" with
  | .error e => .done (.str ("AGENT_ERROR: " ++ e))
  | .ok tag =>
    if jsonEqStr tag "response" then
      match pyGetItem action "content" with
      | .error e => .done (.str ("AGENT_ERROR: " ++ e))
      | .ok c => .done c
    else if jsonEqStr tag "fetch" then
      match pyGetItem action "url" with
      | .error e => .done (.str ("AGENT_ERROR: " ++ e))
      | .ok u =>
        let result := fetch_website env u
        .cont (conv ++ [⟨"assistant",
          "Fetched content from " ++ pyStr u ++ ":\n" ++ result⟩])
    else if jsonEqStr tag "render" then
      match pyGetItem action "url" with
      | .error e => .done (.str ("AGENT_ERROR: " ++ e))
      | .ok u =>
        let result := fetch_dynamic_content env u (lookupField
          (match action with | .obj fs => fs | _ => []) "wait_for")
        .cont (conv ++ [⟨"assistant",
          "Rendered content from " ++ pyStr u ++ ":\n" ++ result⟩])
    else if jsonEqStr tag "extract" then
      match pyGetItem action "html" with
      | .error e => .done (.str ("AGENT_ERROR: " ++ e))
      | .ok h =>
        match pyGetItem action "selector" with
        | .error e => .done (.str ("AGENT_ERROR: " ++ e))
        | .ok sel =>
          let result := extract_data env h sel
          .cont (conv ++ [⟨"assistant",
            "Extraction results using \x27" ++ pyStr sel ++ "\x27:\n" ++
              jsonDumpsList result⟩])
    else .done (.str "ERROR: Invalid action requested")

/-- One iteration of the loop body (`main.py:96-143`). -/
def scrape_step (env : Env) (conv : List Message) : StepOut :=
  match env.llm conv with
  | .error e => .done (.str ("AGENT_ERROR: " ++ e))
  | .ok reply => dispatch_action env (parse_llm_response reply) conv

/-- The bounded `for` loop of `execute_agent_loop` (`main.py:95-145`). -/
def run_loop (env : Env) : Nat → Nat → List Message → JsonVal × Nat
  | 0, steps, _ => (.str "MAX_STEPS_REACHED: Processing limit exceeded", steps)
  | fuel + 1, steps, conv =>
    match scrape_step env conv with
    | .done v => (v, steps + 1)
    | .cont conv' => run_loop env fuel (steps + 1) conv'

/-- The `max_steps` constant (`main.py:94`). -/
def max_steps : Nat := 5

/-- The system prompt of `main.py:147-187`. -/
def GROQ_SYSTEM_PROMPT : String :=
  "\nYou are a senior web scraping agent powered by Groq\x27s LLaMA 3 70B. Your task is to systematically:\n\n1. Analyze user requests\n2. Determine required data sources\n3. Execute appropriate actions\n4. Validate results\n5. Return structured data\n\n**Available Actions (JSON format only):**\n- Fetch static content: \n```json\n\x7b\"action\": \"fetch\", \"url\": \"<target_url>\"\x7d\n```\n- Render dynamic content: \n```json\n\x7b\"action\": \"render\", \"url\": \"<target_url>\", \"wait_for\": \"<css_selector>\"\x7d\n```\n- Extract data: \n```json\n\x7b\"action\": \"extract\", \"html\": \"<content>\", \"selector\": \"<css_selector>\"\x7d\n```\n- Final response: \n```json\n\x7b\"action\": \"response\", \"content\": \"<final_answer>\"\x7d\n```\n\n**Workflow Rules:**\n1. Always start with basic fetch before rendering\n2. Verify content contains target data elements\n3. Use precise CSS selectors (classes > tags)\n4. Handle pagination if needed\n5. Validate extracted data format\n6. Retry with alternatives on failure\n\n**Response Protocol:**\n- Use only JSON-formatted code blocks for actions\n- Include detailed error diagnostics\n- Maintain chain of thought reasoning\n- Validate all extracted data\n"

/-- The seeded conversation (`main.py:86-92`). -/
def init_conv (user_query : String) : List Message :=
  [⟨"system", GROQ_SYSTEM_PROMPT⟩, ⟨"user", user_query⟩]

/-- Model of `execute_agent_loop` (`main.py:84-145`), returning the
Python function's value. -/
def execute_agent_loop (env : Env) (user_query : String) : JsonVal :=
  (run_loop env max_steps 0 (init_conv user_query)).1

/-- Number of loop iterations executed by `execute_agent_loop`. -/
def execute_agent_steps (env : Env) (user_query : String) : Nat :=
  (run_loop env max_steps 0 (init_conv user_query)).2

end MainPy

/-! ## Spec-level actions

The specification's `Action` datatype (§3) and the interpretation the
loops give to a decoded JSON object.  `action_of_json` follows the
dispatch chain of both loops: the five recognised outcomes, or `none`
when the dispatch raises before reaching a recognised arm (missing
`action` key, non-object value) — those runs are classified
`AGENT_ERROR` rather than treated as any action. -/

/-- The specification's tagged action variant (§3 of the spec). -/
inductive SpecAction where
  | fetch (url : String) : SpecAction
  | render (url : String) (wait_for : Option String) : SpecAction
  | extract (content_ref : String) (selector : String) : SpecAction
  | respond (content : String) : SpecAction
  | invalid : SpecAction
deriving DecidableEq

/-- Interpretation of a decoded JSON value as a spec-level action, per
the dispatch chain shared by both loops: a recognised `action` tag maps
to its variant (with string payloads), an unrecognised tag maps to
`invalid` (the `else` arm), and a dispatch that raises instead of
reaching an arm maps to `none`. -/
def action_of_json (v : JsonVal) : Option SpecAction :=
  match pyGetItem v "action" with
  | .error _ => none
  | .ok tag =>
    if jsonEqStr tag "response" then
      match pyGetItem v "content" with
      | .ok (.str c) => some (.respond c)
      | _ => none
    else if jsonEqStr tag "fetch" then
      match pyGetItem v "url" with
      | .ok (.str u) => some (.fetch u)
      | _ => none
    else if jsonEqStr tag "render" then
      match pyGetItem v "url" with
      | .ok (.str u) =>
        match lookupField (match v with | .obj fs => fs | _ => []) "wait_for" with
        | some (.str w) => some (.render u (some w))
        | some _ => none
        | none => some (.render u none)
      | _ => none
    else if jsonEqStr tag "extract" then
      match pyGetItem v "content_id", pyGetItem v "selector" with
      | .ok (.str k), .ok (.str sel) => some (.extract k sel)
      | _, _ => none
    else some .invalid

/-! ## Loop-bound lemmas -/

/-- The step counter of the experimental loop never exceeds the starting
count plus the remaining fuel. -/
theorem exp_run_loop_steps_le (env : Env) :
    ∀ fuel steps st, (ExpPy.run_loop env fuel steps st).2 ≤ steps + fuel := by
  intro fuel
  induction fuel with
  | zero => intro steps st; simp [ExpPy.run_loop]
  | succ n ih =>
    intro steps st
    simp only [ExpPy.run_loop]
    cases h : ExpPy.scrape_step env st with
    | done v => dsimp only; omega
    | cont st' =>
      have := ih (steps + 1) st'
      dsimp only
      omega

/-- If every step continues, the experimental loop consumes all its fuel
and yields the `MAX_STEPS_REACHED` string. -/
theorem exp_run_loop_all_cont (env : Env)
    (H : ∀ st, (ExpPy.scrape_step env st).isCont = true) :
    ∀ fuel steps st, ExpPy.run_loop env fuel steps st =
      (.str "MAX_STEPS_REACHED: Processing limit exceeded", steps + fuel) := by
  intro fuel
  induction fuel with
  | zero => intro steps st; simp [ExpPy.run_loop]
  | succ n ih =>
    intro steps st
    have hst := H st
    simp only [ExpPy.run_loop]
    cases h : ExpPy.scrape_step env st with
    | done v => rw [h] at hst; simp [ExpPy.StepOut.isCont] at hst
    | cont st' =>
      dsimp only
      rw [ih (steps + 1) st']
      have harith : steps + 1 + n = steps + (n + 1) := by omega
      rw [harith]

/-- The step counter of the `main.py` loop never exceeds the starting
count plus the remaining fuel. -/
theorem main_run_loop_steps_le (env : Env) :
    ∀ fuel steps conv, (MainPy.run_loop env fuel steps conv).2 ≤ steps + fuel := by
  intro fuel
  induction fuel with
  | zero => intro steps conv; simp [MainPy.run_loop]
  | succ n ih =>
    intro steps conv
    simp only [MainPy.run_loop]
    cases h : MainPy.scrape_step env conv with
    | done v => dsimp only; omega
    | cont conv' =>
      have := ih (steps + 1) conv'
      dsimp only
      omega

/-- If every step continues, the `main.py` loop consumes all its fuel
and yields the `MAX_STEPS_REACHED` string. -/
theorem main_run_loop_all_cont (env : Env)
    (H : ∀ conv, (MainPy.scrape_step env conv).isCont = true) :
    ∀ fuel steps conv, MainPy.run_loop env fuel steps conv =
      (.str "MAX_STEPS_REACHED: Processing limit exceeded", steps + fuel) := by
  intro fuel
  induction fuel with
  | zero => intro steps conv; simp [MainPy.run_loop]
  | succ n ih =>
    intro steps conv
    have hc := H conv
    simp only [MainPy.run_loop]
    cases h : MainPy.scrape_step env conv with
    | done v => rw [h] at hc; simp [MainPy.StepOut.isCont] at hc
    | cont conv' =>
      dsimp only
      rw [ih (steps + 1) conv']
      have harith : steps + 1 + n = steps + (n + 1) := by omega
      rw [harith]

/-- C1: for every sequence of model replies (every oracle environment),
both agent loops execute at most 5 decision steps; and when no step
returns a terminal result, each loop terminates with the classified
string `MAX_STEPS_REACHED: Processing limit exceeded` after exactly the
5 bounded steps. -/
theorem claim_C1 (env : Env) (user_query : String) :
    (ExpPy.run_scraping_steps env user_query ≤ 5 ∧
      MainPy.execute_agent_steps env user_query ≤ 5) ∧
    ((∀ st, (ExpPy.scrape_step env st).isCont = true) →
      ExpPy.run_scraping_operations env user_query =
        .str "MAX_STEPS_REACHED: Processing limit exceeded" ∧
      ExpPy.run_scraping_steps env user_query = 5) ∧
    ((∀ conv, (MainPy.scrape_step env conv).isCont = true) →
      MainPy.execute_agent_loop env user_query =
        .str "MAX_STEPS_REACHED: Processing limit exceeded" ∧
      MainPy.execute_agent_steps env user_query = 5) := by
  refine ⟨⟨?_, ?_⟩, ?_, ?_⟩
  · have := exp_run_loop_steps_le env 5 0 (ExpPy.init_state user_query)
    simpa [ExpPy.run_scraping_steps, ExpPy.max_steps] using this
  · have := main_run_loop_steps_le env 5 0 (MainPy.init_conv user_query)
    simpa [MainPy.execute_agent_steps, MainPy.max_steps] using this
  · intro H
    have := exp_run_loop_all_cont env H 5 0 (ExpPy.init_state user_query)
    constructor
    · simp [ExpPy.run_scraping_operations, ExpPy.max_steps, this]
    · simp [ExpPy.run_scraping_steps, ExpPy.max_steps, this]
  · intro H
    have := main_run_loop_all_cont env H 5 0 (MainPy.init_conv user_query)
    constructor
    · simp [MainPy.execute_agent_loop, MainPy.max_steps, this]
    · simp [MainPy.execute_agent_steps, MainPy.max_steps, this]

/-- An environment whose model always replies with a fetch action and
whose HTTP oracle always times out: no step is ever terminal. -/
def envC1 : Env where
  llm := fun _ => .ok "```json\n\x7b\"action\": \"fetch\", \"url\": \"http://example.test\"\x7d\n```"
  httpGet := fun _ => .error "timed out"
  browser := fun _ _ => .error "unused"
  select := fun _ _ => .error "unused"

/-- Witness for C1 at a concrete environment: the model never emits a
terminal action, and both loops stop at the bound with the classified
string. -/
theorem claim_C1_witness :
    ExpPy.run_scraping_operations envC1 "q" =
      .str "MAX_STEPS_REACHED: Processing limit exceeded" ∧
    ExpPy.run_scraping_steps envC1 "q" = 5 ∧
    MainPy.execute_agent_loop envC1 "q" =
      .str "MAX_STEPS_REACHED: Processing limit exceeded" ∧
    MainPy.execute_agent_steps envC1 "q" = 5 ∧
    ExpPy.run_scraping_steps envC1 "q" ≤ 5 := by
  have h := claim_C1 envC1 "q"
  have hExp := h.2.1 (fun st => rfl)
  have hMain := h.2.2 (fun conv => rfl)
  exact ⟨hExp.1, hExp.2, hMain.1, hMain.2, h.1.1⟩

/-! ## Content-store lemmas (C4, C10) -/

/-- Store well-formedness: no key at or above the supply counter is
bound.  This is the invariant that makes minted keys fresh. -/
def ExpPy.store_wf (st : ExpPy.ScrapeState) : Prop :=
  ∀ m, st.nextId ≤ m → ExpPy.store_get st (ExpPy.mintKey m) = none

/-- Distinct supply indices mint distinct keys. -/
theorem ExpPy.mintKey_inj (a b : Nat) (h : ExpPy.mintKey a = ExpPy.mintKey b) : a = b := by
  have hd := congrArg String.data h
  simp only [ExpPy.mintKey, String.data_append] at hd
  have hrep := List.append_cancel_left hd
  have hlen := congrArg List.length hrep
  simpa using hlen

/-- A string starting with a classified prefix followed by arbitrary
text satisfies `startswith` for that prefix. -/
theorem pyStartsWith_append_left (p q e : String) (h : p.data <+: q.data) :
    pyStartsWith (q ++ e) p = true := by
  simp only [pyStartsWith, String.data_append, List.isPrefixOf_iff_prefix]
  exact h.trans (List.prefix_append _ _)

/-- C4: storing a non-empty payload mints a key that was never bound
before, the mint keeps the store well formed (so keys are never reused),
`get` on the minted key returns exactly the payload, and an extract
action referencing a never-issued key makes the dispatch substitute the
`CONTENT_NOT_FOUND` sentinel and continue the loop rather than
terminate. -/
theorem claim_C4 (env : Env) (st : ExpPy.ScrapeState) (payload : String)
    (hwf : ExpPy.store_wf st) (_hne : payload ≠ "") :
    ExpPy.store_get st (ExpPy.store_content st payload).1 = none ∧
    ExpPy.store_get (ExpPy.store_content st payload).2 (ExpPy.store_content st payload).1 =
      some payload ∧
    ExpPy.store_wf (ExpPy.store_content st payload).2 ∧
    (∀ key2 sel, ExpPy.store_get st key2 = none →
      ExpPy.dispatch_action env
          (.obj [("action", .str "extract"), ("content_id", .str key2),
                 ("selector", .str sel)]) st =
        .cont (ExpPy.appendMsg st "EXTRACTED:[\"CONTENT_NOT_FOUND\"]")) := by
  refine ⟨hwf st.nextId (Nat.le_refl _), ?_, ?_, ?_⟩
  · simp [ExpPy.store_content, ExpPy.store_get]
  · intro m hm
    simp only [ExpPy.store_content] at hm
    have hne' : ExpPy.mintKey st.nextId ≠ ExpPy.mintKey m := by
      intro hk
      have := ExpPy.mintKey_inj _ _ hk
      omega
    have hrest := hwf m (by omega)
    simp only [ExpPy.store_get] at hrest
    simp only [ExpPy.store_get, ExpPy.store_content]
    rw [List.find?_cons_of_neg]
    · exact hrest
    · simp [hne']
  · intro key2 sel h
    simp [ExpPy.dispatch_action, pyGetItem, lookupField, jsonEqStr,
          ExpPy.store_get_json, h]
    try rfl

/-- Environment with inert oracles, for the C4 witness: the store claims
do not touch any external effect. -/
def envC4 : Env where
  llm := fun _ => .error "unused"
  httpGet := fun _ => .error "unused"
  browser := fun _ _ => .error "unused"
  select := fun _ _ => .error "unused"

/-- Witness for C4 on the empty store: put then get returns the payload,
and an extract on a never-issued key continues with the sentinel. -/
theorem claim_C4_witness :
    ExpPy.store_get (ExpPy.store_content ⟨[], [], 0⟩ "hello").2
        (ExpPy.store_content ⟨[], [], 0⟩ "hello").1 = some "hello" ∧
    ExpPy.dispatch_action envC4
        (.obj [("action", .str "extract"), ("content_id", .str "never-issued"),
               ("selector", .str "h1")]) ⟨[], [], 0⟩ =
      .cont (ExpPy.appendMsg ⟨[], [], 0⟩ "EXTRACTED:[\"CONTENT_NOT_FOUND\"]") := by
  have h := claim_C4 envC4 ⟨[], [], 0⟩ "hello" (fun m hm => rfl) (by decide)
  exact ⟨h.2.1, h.2.2.2 "never-issued" "h1" rfl⟩

/-- C10: after the empty string is stored, an extract action referencing
the minted key is dispatched exactly like a never-issued reference: the
truthiness test `if not content:` substitutes the `CONTENT_NOT_FOUND`
sentinel instead of running the extractor, even though `get` does return
the (empty) payload. -/
theorem claim_C10 (env : Env) (st : ExpPy.ScrapeState) (sel : String) :
    ExpPy.store_get (ExpPy.store_content st "").2 (ExpPy.store_content st "").1 =
      some "" ∧
    ExpPy.dispatch_action env
        (.obj [("action", .str "extract"),
               ("content_id", .str (ExpPy.store_content st "").1),
               ("selector", .str sel)]) (ExpPy.store_content st "").2 =
      .cont (ExpPy.appendMsg (ExpPy.store_content st "").2
        "EXTRACTED:[\"CONTENT_NOT_FOUND\"]") ∧
    (∀ k, ExpPy.store_get (ExpPy.store_content st "").2 k = none →
      ExpPy.dispatch_action env
          (.obj [("action", .str "extract"), ("content_id", .str k),
                 ("selector", .str sel)]) (ExpPy.store_content st "").2 =
        .cont (ExpPy.appendMsg (ExpPy.store_content st "").2
          "EXTRACTED:[\"CONTENT_NOT_FOUND\"]")) := by
  refine ⟨?_, ?_, ?_⟩
  · simp [ExpPy.store_content, ExpPy.store_get]
  · have hget : ExpPy.store_get (ExpPy.store_content st "").2
        (ExpPy.store_content st "").1 = some "" := by
      simp [ExpPy.store_content, ExpPy.store_get]
    simp [ExpPy.dispatch_action, pyGetItem, lookupField, jsonEqStr,
          ExpPy.store_get_json, hget]
    try rfl
  · intro k h
    simp [ExpPy.dispatch_action, pyGetItem, lookupField, jsonEqStr,
          ExpPy.store_get_json, h]
    try rfl

/-- Environment with inert oracles, for the C10 witness. -/
def envC10 : Env where
  llm := fun _ => .error "unused"
  httpGet := fun _ => .error "unused"
  browser := fun _ _ => .error "unused"
  select := fun _ _ => .error "unused"

/-- Witness for C10 on the empty store: storing the empty payload and
extracting through its minted key yields the sentinel message, the same
message a never-issued key yields. -/
theorem claim_C10_witness :
    ExpPy.dispatch_action envC10
        (.obj [("action", .str "extract"),
               ("content_id", .str (ExpPy.store_content ⟨[], [], 0⟩ "").1),
               ("selector", .str "h1")]) (ExpPy.store_content ⟨[], [], 0⟩ "").2 =
      .cont (ExpPy.appendMsg (ExpPy.store_content ⟨[], [], 0⟩ "").2
        "EXTRACTED:[\"CONTENT_NOT_FOUND\"]") ∧
    ExpPy.dispatch_action envC10
        (.obj [("action", .str "extract"), ("content_id", .str "missing"),
               ("selector", .str "h1")]) (ExpPy.store_content ⟨[], [], 0⟩ "").2 =
      .cont (ExpPy.appendMsg (ExpPy.store_content ⟨[], [], 0⟩ "").2
        "EXTRACTED:[\"CONTENT_NOT_FOUND\"]") := by
  have h := claim_C10 envC10 ⟨[], [], 0⟩ "h1"
  exact ⟨h.2.1, h.2.2 "missing" rfl⟩

/-! ## Fetch-failure recovery (C7) -/

/-- C7: when the HTTP oracle fails, the fetch dispatch of either loop
does not terminate.  In the experimental loop the `FETCH_ERROR:`
diagnostic is stored under a fresh content ref and the appended
assistant message encodes that ref with the URL; in the `main.py` loop
the appended assistant message embeds the diagnostic directly.  A
continuing step always advances the loop to its next iteration with the
step count incremented. -/
theorem claim_C7 (env : Env) (st : ExpPy.ScrapeState) (conv : List Message)
    (url e : String) (h : env.httpGet url = .error e) :
    (ExpPy.dispatch_action env (.obj [("action", .str "fetch"), ("url", .str url)]) st =
      .cont (ExpPy.appendMsg
        { st with store := (ExpPy.mintKey st.nextId, "FETCH_ERROR: " ++ e) :: st.store,
                  nextId := st.nextId + 1 }
        ("FETCHED:" ++ ExpPy.mintKey st.nextId ++ "|" ++ url))) ∧
    ExpPy.store_get
        { st with store := (ExpPy.mintKey st.nextId, "FETCH_ERROR: " ++ e) :: st.store,
                  nextId := st.nextId + 1 }
        (ExpPy.mintKey st.nextId) = some ("FETCH_ERROR: " ++ e) ∧
    pyStartsWith ("FETCH_ERROR: " ++ e) "FETCH_ERROR:" = true ∧
    (MainPy.dispatch_action env (.obj [("action", .str "fetch"), ("url", .str url)]) conv =
      .cont (conv ++ [⟨"assistant",
        "Fetched content from " ++ url ++ ":\n" ++ ("FETCH_ERROR: " ++ e)⟩])) ∧
    (∀ (fuel steps : Nat) (st2 st3 : ExpPy.ScrapeState),
      ExpPy.scrape_step env st2 = .cont st3 →
      ExpPy.run_loop env (fuel + 1) steps st2 = ExpPy.run_loop env fuel (steps + 1) st3) ∧
    (∀ (fuel steps : Nat) (c2 c3 : List Message),
      MainPy.scrape_step env c2 = .cont c3 →
      MainPy.run_loop env (fuel + 1) steps c2 = MainPy.run_loop env fuel (steps + 1) c3) := by
  refine ⟨?_, ?_, ?_, ?_, ?_, ?_⟩
  · simp [ExpPy.dispatch_action, pyGetItem, lookupField, jsonEqStr, fetch_website, h,
          ExpPy.store_content, ExpPy.appendMsg, pyStr]
  · simp [ExpPy.store_get]
  · exact pyStartsWith_append_left "FETCH_ERROR:" "FETCH_ERROR: " e (by decide)
  · simp [MainPy.dispatch_action, pyGetItem, lookupField, jsonEqStr, fetch_website, h, pyStr]
  · intro fuel steps st2 st3 hstep
    simp only [ExpPy.run_loop, hstep]
  · intro fuel steps c2 c3 hstep
    simp only [MainPy.run_loop, hstep]

/-- Environment for the C7 witness: the model asks for a fetch and the
HTTP client times out. -/
def envC7 : Env where
  llm := fun _ => .ok "```json\n\x7b\"action\": \"fetch\", \"url\": \"http://example.test\"\x7d\n```"
  httpGet := fun _ => .error "timed out after 15s"
  browser := fun _ _ => .error "unused"
  select := fun _ _ => .error "unused"

/-- Witness for C7 at a concrete timed-out fetch: the appended message
of each loop and the stored diagnostic, on the initial states. -/
theorem claim_C7_witness :
    (ExpPy.dispatch_action envC7
        (.obj [("action", .str "fetch"), ("url", .str "http://example.test")])
        (ExpPy.init_state "q") =
      .cont (ExpPy.appendMsg
        { ExpPy.init_state "q" with
            store := (ExpPy.mintKey 0, "FETCH_ERROR: timed out after 15s") :: [],
            nextId := 1 }
        ("FETCHED:" ++ ExpPy.mintKey 0 ++ "|http://example.test"))) ∧
    (MainPy.dispatch_action envC7
        (.obj [("action", .str "fetch"), ("url", .str "http://example.test")])
        (MainPy.init_conv "q") =
      .cont (MainPy.init_conv "q" ++ [⟨"assistant",
        "Fetched content from http://example.test:\nFETCH_ERROR: timed out after 15s"⟩])) ∧
    pyStartsWith "FETCH_ERROR: timed out after 15s" "FETCH_ERROR:" = true := by
  have h := claim_C7 envC7 (ExpPy.init_state "q") (MainPy.init_conv "q")
    "http://example.test" "timed out after 15s" rfl
  exact ⟨h.1, h.2.2.2.1, h.2.2.1⟩

/-! ## Result classification in `execute_agent_loop` (C9, C8) -/

/-- C9: a raw scraping result starting with one of the six classified
prefixes makes `execute_agent_loop` return the error dict without any
formatting call; any other raw string is returned together with the
formatted output of the formatting pass when that pass succeeds. -/
theorem claim_C9 (env : Env) (user_query s : String)
    (hs : ExpPy.run_scraping_operations env user_query = .str s) :
    (ExpPy.is_error s = true →
      ExpPy.execute_agent_loop env user_query = .ok [("error", .str s)]) ∧
    (ExpPy.is_error s = false → ∀ f, ExpPy.format_output env s user_query = .ok f →
      ExpPy.execute_agent_loop env user_query =
        .ok [("raw_data", .str s), ("formatted", .str f)]) := by
  constructor
  · intro he
    simp [ExpPy.execute_agent_loop, hs, he]
  · intro he f hf
    simp [ExpPy.execute_agent_loop, hs, he, hf]

/-- Environment for the first C9 witness: the model's legitimate
`response` content happens to start with a classified prefix. -/
def envC9a : Env where
  llm := fun _ =>
    .ok "```json\n\x7b\"action\": \"response\", \"content\": \"FETCH_ERROR: just my answer\"\x7d\n```"
  httpGet := fun _ => .error "unused"
  browser := fun _ _ => .error "unused"
  select := fun _ _ => .error "unused"

/-- Environment for the second C9 witness: a clean answer and a
formatting pass that succeeds. -/
def envC9b : Env where
  llm := fun msgs =>
    match msgs with
    | m :: _ =>
      if m.content = ExpPy.FORMATTING_SYSTEM_PROMPT then .ok "formatted answer"
      else .ok "```json\n\x7b\"action\": \"response\", \"content\": \"Paris\"\x7d\n```"
    | [] => .error "no messages"
  httpGet := fun _ => .error "unused"
  browser := fun _ _ => .error "unused"
  select := fun _ _ => .error "unused"

/-- Witness for C9: the error dict is returned even though the
prefix-bearing string was the model's legitimate response content, and a
clean answer comes back with both raw and formatted fields. -/
theorem claim_C9_witness :
    ExpPy.execute_agent_loop envC9a "q" =
      .ok [("error", .str "FETCH_ERROR: just my answer")] ∧
    ExpPy.execute_agent_loop envC9b "q" =
      .ok [("raw_data", .str "Paris"), ("formatted", .str "formatted answer")] := by
  have ha := claim_C9 envC9a "q" "FETCH_ERROR: just my answer" rfl
  have hb := claim_C9 envC9b "q" "Paris" rfl
  exact ⟨ha.1 rfl, hb.2 rfl "formatted answer" rfl⟩

/-- C8 (amended): when the scraping phase yields a successful
(non-classified) raw answer and the formatting model call fails, the
exception propagates out of `execute_agent_loop` and the caller receives
neither the raw nor the formatted result; the raw answer reaches the
caller only when formatting succeeds. -/
theorem claim_C8 (env : Env) (user_query s e : String)
    (hs : ExpPy.run_scraping_operations env user_query = .str s)
    (he : ExpPy.is_error s = false)
    (hf : ExpPy.format_output env s user_query = .error e) :
    ExpPy.execute_agent_loop env user_query = .error e := by
  simp [ExpPy.execute_agent_loop, hs, he, hf]

/-- Environment for the C8 counterexample: scraping succeeds, the
formatting call's transport fails. -/
def envC8 : Env where
  llm := fun msgs =>
    match msgs with
    | m :: _ =>
      if m.content = ExpPy.FORMATTING_SYSTEM_PROMPT then .error "Connection timed out"
      else .ok "```json\n\x7b\"action\": \"response\", \"content\": \"the answer\"\x7d\n```"
    | [] => .error "no messages"
  httpGet := fun _ => .error "unused"
  browser := fun _ _ => .error "unused"
  select := fun _ _ => .error "unused"

/-- Counterexample to C4's sibling claim C8 as stated: here the scraping
phase produced the successful raw answer `"the answer"`, the formatting
pass failed, and the caller of `execute_agent_loop` received an
exception rather than the raw result. -/
theorem claim_C8_counterexample :
    ExpPy.run_scraping_operations envC8 "q" = .str "the answer" ∧
    ExpPy.is_error "the answer" = false ∧
    ExpPy.format_output envC8 "the answer" "q" = .error "Connection timed out" ∧
    ExpPy.execute_agent_loop envC8 "q" = .error "Connection timed out" :=
  ⟨rfl, rfl, rfl, rfl⟩

/-- Witness for the amended C8 at the same concrete environment. -/
theorem claim_C8_witness :
    ExpPy.execute_agent_loop envC8 "q" = .error "Connection timed out" :=
  claim_C8 envC8 "q" "the answer" "Connection timed out" rfl rfl rfl

/-! ## Decoder failure behaviour (C2, C3) -/

/-- Environment with inert oracles, for the C2 statements. -/
def envC2 : Env where
  llm := fun _ => .error "unused"
  httpGet := fun _ => .error "unused"
  browser := fun _ _ => .error "unused"
  select := fun _ _ => .error "unused"

/-- Counterexample to C2 as stated: on a reply with no recognizable
JSON, the experimental decoder returns a `response`-tagged object (the
`PARSE_ERROR` diagnostic as its content), not the Invalid action; the
`main.py` decoder returns the raw reply with no diagnostic at all; and a
parsed object with no `action` field is dispatched to a `KeyError`
classified as `AGENT_ERROR`, not to the invalid-action error. -/
theorem claim_C2_counterexample :
    ExpPy.parse_llm_response "hello, no json here" =
      .obj [("action", .str "response"),
            ("content", .str "PARSE_ERROR: list index out of range")] ∧
    action_of_json (ExpPy.parse_llm_response "hello, no json here") ≠ some .invalid ∧
    action_of_json (ExpPy.parse_llm_response "hello, no json here") =
      some (.respond "PARSE_ERROR: list index out of range") ∧
    MainPy.parse_llm_response "hello, no json here" =
      .obj [("action", .str "response"), ("content", .str "hello, no json here")] ∧
    ExpPy.dispatch_action envC2 (.obj [("foo", .str "bar")]) (ExpPy.init_state "q") =
      .done (.str "AGENT_ERROR: \x27action\x27") :=
  ⟨rfl, by decide, rfl, rfl, rfl⟩

/-- C2 (amended): on a reply where both decoding attempts fail, the
experimental decoder never raises and returns a `response`-tagged object
whose content is the `PARSE_ERROR:`-prefixed diagnostic, while the
`main.py` decoder returns the raw reply as response content with no
diagnostic; a parsed object with an unrecognised `action` value reaches
the loop's invalid-action arm, whereas an absent `action` field raises a
`KeyError` inside the loop, classified as `AGENT_ERROR` rather than as
an invalid action. -/
theorem claim_C2 (reply e reply2 e2 : String) (o o2 tag : JsonVal)
    (env : Env) (st : ExpPy.ScrapeState) (ke : String)
    (hf : ExpPy.fencedTry reply = .error e)
    (hb : jsonLoads (ExpPy.braceSpan reply) = none)
    (hm : MainPy.fencedTry reply2 = .error e2)
    (htag : pyGetItem o "action" = .ok tag)
    (h1 : jsonEqStr tag "response" = false) (h2 : jsonEqStr tag "fetch" = false)
    (h3 : jsonEqStr tag "render" = false) (h4 : jsonEqStr tag "extract" = false)
    (hke : pyGetItem o2 "action" = .error ke) :
    ExpPy.parse_llm_response reply =
      .obj [("action", .str "response"), ("content", .str ("PARSE_ERROR: " ++ e))] ∧
    MainPy.parse_llm_response reply2 =
      .obj [("action", .str "response"), ("content", .str reply2)] ∧
    ExpPy.dispatch_action env o st = .done (.str "ERROR: Invalid action requested") ∧
    ExpPy.dispatch_action env o2 st = .done (.str ("AGENT_ERROR: " ++ ke)) := by
  refine ⟨?_, ?_, ?_, ?_⟩
  · simp [ExpPy.parse_llm_response, hf, hb]
  · simp [MainPy.parse_llm_response, hm]
  · simp [ExpPy.dispatch_action, htag, h1, h2, h3, h4]
  · simp [ExpPy.dispatch_action, hke]

/-- Witness for the amended C2 at concrete inputs: a JSON-free reply, an
object with an unrecognised tag, and an object with no tag. -/
theorem claim_C2_witness :
    ExpPy.parse_llm_response "hello" =
      .obj [("action", .str "response"),
            ("content", .str "PARSE_ERROR: list index out of range")] ∧
    MainPy.parse_llm_response "bla" =
      .obj [("action", .str "response"), ("content", .str "bla")] ∧
    ExpPy.dispatch_action envC2 (.obj [("action", .str "wiggle")])
      (ExpPy.init_state "q") = .done (.str "ERROR: Invalid action requested") ∧
    ExpPy.dispatch_action envC2 (.obj []) (ExpPy.init_state "q") =
      .done (.str "AGENT_ERROR: \x27action\x27") := by
  have h := claim_C2 "hello" indexErrMsg "bla" indexErrMsg
    (.obj [("action", .str "wiggle")]) (.obj []) (.str "wiggle")
    envC2 (ExpPy.init_state "q") "\x27action\x27"
    rfl rfl rfl rfl rfl rfl rfl rfl rfl
  exact h

/-- Environment whose model reply is unparseable garbage, for C3. -/
def envC3 : Env where
  llm := fun _ => .ok "this is not json at all"
  httpGet := fun _ => .error "unused"
  browser := fun _ _ => .error "unused"
  select := fun _ _ => .error "unused"

/-- Counterexample to C3 as stated: in the `main.py` loop an unparseable
garbage reply is returned verbatim as the successful answer of the first
step — it is not an Invalid-derived classified error (`_is_error` of the
experimental module does not even classify it). -/
theorem claim_C3_counterexample :
    MainPy.execute_agent_loop envC3 "q" = .str "this is not json at all" ∧
    MainPy.execute_agent_steps envC3 "q" = 1 ∧
    ExpPy.is_error "this is not json at all" = false :=
  ⟨rfl, rfl, rfl⟩

/-- C3 (amended): in the experimental loop, a step whose model reply
fails both decoding attempts terminates the loop at that step with the
`PARSE_ERROR:`-classified string (which `_is_error` classifies, so
`execute_agent_loop` returns it as an error dict); the `main.py` loop
instead terminates at that step returning the garbage reply itself as
the successful answer; in both loops the step count never exceeds 5. -/
theorem claim_C3 (env : Env) (st : ExpPy.ScrapeState) (conv : List Message)
    (g e g2 e2 user_query : String) (fuel steps : Nat)
    (hllm : env.llm st.conv = .ok g)
    (hf : ExpPy.fencedTry g = .error e)
    (hb : jsonLoads (ExpPy.braceSpan g) = none)
    (hllm2 : env.llm conv = .ok g2)
    (hm : MainPy.fencedTry g2 = .error e2) :
    ExpPy.run_loop env (fuel + 1) steps st = (.str ("PARSE_ERROR: " ++ e), steps + 1) ∧
    ExpPy.is_error ("PARSE_ERROR: " ++ e) = true ∧
    MainPy.run_loop env (fuel + 1) steps conv = (.str g2, steps + 1) ∧
    ExpPy.run_scraping_steps env user_query ≤ 5 ∧
    MainPy.execute_agent_steps env user_query ≤ 5 := by
  refine ⟨?_, ?_, ?_, ?_, ?_⟩
  · have hparse : ExpPy.parse_llm_response g =
        .obj [("action", .str "response"),
              ("content", .str ("PARSE_ERROR: " ++ e))] := by
      simp [ExpPy.parse_llm_response, hf, hb]
    simp [ExpPy.run_loop, ExpPy.scrape_step, hllm, hparse,
          ExpPy.dispatch_action, pyGetItem, lookupField, jsonEqStr]
  · have hp := pyStartsWith_append_left "PARSE_ERROR" "PARSE_ERROR: " e (by decide)
    simp [ExpPy.is_error, ExpPy.error_prefixes, hp]
  · have hparse : MainPy.parse_llm_response g2 =
        .obj [("action", .str "response"), ("content", .str g2)] := by
      simp [MainPy.parse_llm_response, hm]
    simp [MainPy.run_loop, MainPy.scrape_step, hllm2, hparse,
          MainPy.dispatch_action, pyGetItem, lookupField, jsonEqStr]
  · have := exp_run_loop_steps_le env 5 0 (ExpPy.init_state user_query)
    simpa [ExpPy.run_scraping_steps, ExpPy.max_steps] using this
  · have := main_run_loop_steps_le env 5 0 (MainPy.init_conv user_query)
    simpa [MainPy.execute_agent_steps, MainPy.max_steps] using this

/-- Witness for the amended C3 at the garbage environment: the
experimental loop stops at step one with the classified `PARSE_ERROR`
string, the `main.py` loop stops at step one returning the garbage. -/
theorem claim_C3_witness :
    ExpPy.run_loop envC3 5 0 (ExpPy.init_state "q") =
      (.str "PARSE_ERROR: list index out of range", 1) ∧
    ExpPy.is_error "PARSE_ERROR: list index out of range" = true ∧
    MainPy.run_loop envC3 5 0 (MainPy.init_conv "q") =
      (.str "this is not json at all", 1) := by
  have h := claim_C3 envC3 (ExpPy.init_state "q") (MainPy.init_conv "q")
    "this is not json at all" indexErrMsg "this is not json at all" indexErrMsg
    "q" 4 0 rfl rfl rfl rfl rfl
  exact ⟨h.1, h.2.1, h.2.2.1⟩

/-! ## Content Cleaner (C6) -/

/-- Removing tagged subtrees and then collecting text is the same as
collecting text while skipping those subtrees: no text of a removed
element survives into the output. -/
theorem collectTexts_removeTags (bad : List String) :
    ∀ ns, collectTexts (removeTagsList bad ns) = collectTextsAvoid bad ns := by
  intro ns
  induction ns using collectTexts.induct with
  | case1 => simp [removeTagsList, collectTexts, collectTextsAvoid]
  | case2 s ns ih => simp [removeTagsList, collectTexts, collectTextsAvoid, ih]
  | case3 t ch ns ih1 ih2 =>
    by_cases h : t ∈ bad
    · simp [removeTagsList, collectTexts, collectTextsAvoid, h, ih2]
    · simp [removeTagsList, collectTexts, collectTextsAvoid, h, ih1, ih2]

/-- C6: for every input string, the Content Cleaner's output has at most
`max_html_length` (6000) characters, and the text it is built from is
exactly the text lying outside the removed elements (script, style, and
the other decomposed tags) — no text originating inside them survives.
The cleaner is a total pure function of its input: determinism, absence
of side effects and of exceptions are inherent in the embedding. -/
theorem claim_C6 (html : String) :
    (clean_html html).length ≤ 6000 ∧
    collectTexts (removeTagsList cleanedTags (parseHtml html)) =
      collectTextsAvoid cleanedTags (parseHtml html) := by
  constructor
  · have : (clean_html html).length ≤ max_html_length := by
      simp only [clean_html, pyTake, String.length]
      exact List.length_take_le max_html_length _
    simpa [max_html_length] using this
  · exact collectTexts_removeTags cleanedTags (parseHtml html)

/-! ## Codec round-trip (C5)

Helper lemmas tracking the experimental decoder over a fenced reply with
symbolic field values: the triple-backquote scanner passes over
backquote-free payloads, the JSON string-literal parser returns
escape-free payloads verbatim, and one object member of string type is
consumed at a time. -/

set_option linter.unreachableTactic false

set_option linter.unusedTactic false

set_option linter.unnecessarySeqFocus false

/-- The scanner steps over one non-backquote character. -/
theorem splitTicksAux_cons_ne (c : Char) (cs acc : List Char) (h : c ≠ bq) :
    splitTicksAux (c :: cs) acc = splitTicksAux cs (c :: acc) := by
  match cs with
  | [] => simp [splitTicksAux]
  | [c2] => simp [splitTicksAux]
  | c2 :: c3 :: rest => simp [splitTicksAux, h]

/-- The scanner passes over a backquote-free segment unchanged. -/
theorem splitTicksAux_skip : ∀ (mid rest acc : List Char), (∀ c ∈ mid, c ≠ bq) →
    splitTicksAux (mid ++ rest) acc = splitTicksAux rest (mid.reverse ++ acc) := by
  intro mid
  induction mid with
  | nil => intro rest acc h; simp
  | cons c mid' ih =>
    intro rest acc h
    have hc : c ≠ bq := h c (by simp)
    rw [List.cons_append, splitTicksAux_cons_ne c _ _ hc,
        ih _ _ (fun d hd => h d (by simp [hd]))]
    simp

/-- Splitting a well-formed fenced block on triple backquotes yields the
three Python segments. -/
theorem splitTicks_fenced (body : String) (h : ∀ c ∈ body.data, c ≠ bq) :
    splitTicks ("```json\n" ++ body ++ "\n```") = ["", "json\n" ++ body ++ "\n", ""] := by
  show (splitTicksAux
      (bq :: bq :: bq :: 'j' :: 's' :: 'o' :: 'n' :: '\n' ::
        (body.data ++ ('\n' :: bq :: bq :: bq :: []))) []).map
        String.mk = ["", "json\n" ++ body ++ "\n", ""]
  simp +decide only [splitTicksAux, if_true, if_false]
  rw [splitTicksAux_cons_ne 'n' _ _ (by decide), splitTicksAux_cons_ne '\n' _ _ (by decide),
      splitTicksAux_skip body.data _ _ h,
      splitTicksAux_cons_ne '\n' _ _ (by decide)]
  simp +decide only [splitTicksAux, if_true, if_false]
  simp only [List.map_cons, List.map_nil, List.reverse_nil, List.reverse_cons,
             List.reverse_append, List.reverse_reverse, List.append_assoc, List.nil_append,
             List.cons_append, List.append_nil]
  constructor

/-- The JSON string-literal body parser returns an escape-free payload
verbatim, consuming through the closing quote. -/
theorem parseStrLit_plain : ∀ (cs rest : List Char),
    (∀ c ∈ cs, c ≠ '"' ∧ c ≠ '\\') →
    parseStrLit (cs ++ '"' :: rest) = some (cs, rest) := by
  intro cs
  induction cs with
  | nil =>
    intro rest h
    rw [parseStrLit.eq_def]
    simp
  | cons c cs' ih =>
    intro rest h
    have hc := h c (by simp)
    rw [List.cons_append, parseStrLit.eq_def]
    simp [hc.1, hc.2, ih rest (fun d hd => h d (by simp [hd]))]

/-- Rebuilding a string from its characters is the identity. -/
theorem string_mk_data (s : String) : String.mk s.data = s := rfl

/-- One string-valued member of a JSON object is consumed in a single
step: given the input starts (after whitespace) with a quoted escape-free
key, a colon, a space and a quoted escape-free value, the member parser
records the pair and dispatches on the next delimiter. -/
theorem parseMembers_strfield (f : Nat) (key vs : List Char) (cs rest : List Char)
    (first : Bool) (acc : List (String × JsonVal))
    (hcs : skipWs cs = '"' :: (key ++ ('"' :: ':' :: ' ' :: '"' :: (vs ++ ('"' :: rest)))))
    (hkey : ∀ c ∈ key, c ≠ '"' ∧ c ≠ '\\') (hvs : ∀ c ∈ vs, c ≠ '"' ∧ c ≠ '\\') :
    parseMembers (f + 2) cs first acc =
      (match skipWs rest with
       | c3 :: rest5 =>
         if c3 = ',' then
           parseMembers (f + 1) rest5 false ((String.mk key, JsonVal.str (String.mk vs)) :: acc)
         else if c3 = '}' then
           some (.obj (((String.mk key, JsonVal.str (String.mk vs))) :: acc).reverse, rest5)
         else none
       | [] => none) := by
  rw [show f + 2 = (f + 1) + 1 from rfl, parseMembers.eq_def]
  simp only [hcs]
  rw [parseStrLit_plain key _ hkey]
  simp +decide only [skipWs, List.dropWhile, isWsChar, decide_False, decide_True, if_true, if_false]
  rw [parseValue.eq_def]
  simp +decide only [skipWs, List.dropWhile, isWsChar, decide_False, decide_True, if_true, if_false]
  rw [parseStrLit_plain vs _ hvs]
  dsimp only [Option.map]
  cases hr : List.dropWhile isWsChar rest with
  | nil => rfl
  | cons c3 rest5 => rfl
/-- The canonical fetch body (with the trailing newline the fenced block leaves) parses to its object with every field verbatim. -/
theorem jsonLoads_fetch (url : String)
    (hurl : ∀ c ∈ url.data, c ≠ '"' ∧ c ≠ '\\')
    :
    jsonLoads ("\x7b\"action\": \"fetch\", \"url\": \"" ++ url ++ "\"\x7d" ++ "\n") =
      some (.obj [("action", .str "fetch"), ("url", .str url)]) := by
  have hdata : (("\x7b\"action\": \"fetch\", \"url\": \"" ++ url ++ "\"\x7d" ++ "\n") : String).data =
      '{' :: ('"' :: (['a','c','t','i','o','n'] ++ ('"' :: ':' :: ' ' :: '"' :: (['f','e','t','c','h'] ++ ('"' :: ',' :: ' ' :: '"' :: (['u','r','l'] ++ ('"' :: ':' :: ' ' :: '"' :: (url.data ++ ('"' :: '}' :: '\n' :: []))))))))) := by
    show (((['{','"','a','c','t','i','o','n','"',':',' ','"','f','e','t','c','h','"',',',' ','"','u','r','l','"',':',' ','"'] ++ url.data) ++ ['"','}']) ++ ('\n' :: [])) = _
    simp
  unfold jsonLoads
  rw [hdata]
  rw [show ('{' :: ('"' :: (['a','c','t','i','o','n'] ++ ('"' :: ':' :: ' ' :: '"' :: (['f','e','t','c','h'] ++ ('"' :: ',' :: ' ' :: '"' :: (['u','r','l'] ++ ('"' :: ':' :: ' ' :: '"' :: (url.data ++ ('"' :: '}' :: '\n' :: [])))))))))).length + 1 = (url.data.length + 31) + 1 from by simp <;> omega]
  rw [parseValue.eq_def]
  simp +decide only [skipWs, List.dropWhile, isWsChar, decide_False, decide_True, if_true, if_false, Nat.add_assoc]
  rw [show (url.data.length + 31) = (url.data.length + 29) + 2 from by omega]
  rw [parseMembers_strfield ((url.data.length + 29)) ['a','c','t','i','o','n'] ['f','e','t','c','h']
        ('"' :: (['a','c','t','i','o','n'] ++ ('"' :: ':' :: ' ' :: '"' :: (['f','e','t','c','h'] ++ ('"' :: ',' :: ' ' :: '"' :: (['u','r','l'] ++ ('"' :: ':' :: ' ' :: '"' :: (url.data ++ ('"' :: '}' :: '\n' :: [])))))))))
        (',' :: ' ' :: '"' :: (['u','r','l'] ++ ('"' :: ':' :: ' ' :: '"' :: (url.data ++ ('"' :: '}' :: '\n' :: [])))))
        true [] rfl (by decide) (by decide)]
  simp +decide only [skipWs, List.dropWhile, isWsChar, decide_False, decide_True, if_true, if_false, Nat.add_assoc]
  rw [show (url.data.length + 30) = (url.data.length + 28) + 2 from by omega]
  rw [parseMembers_strfield ((url.data.length + 28)) ['u','r','l'] url.data
        (' ' :: '"' :: (['u','r','l'] ++ ('"' :: ':' :: ' ' :: '"' :: (url.data ++ ('"' :: '}' :: '\n' :: [])))))
        ('}' :: '\n' :: [])
        false [(String.mk ['a','c','t','i','o','n'], JsonVal.str (String.mk ['f','e','t','c','h']))] rfl (by decide) hurl]
  simp +decide only [skipWs, List.dropWhile, isWsChar, decide_False, decide_True, if_true, if_false, Nat.add_assoc]
  rfl

/-- The canonical response body (with the trailing newline the fenced block leaves) parses to its object with every field verbatim. -/
theorem jsonLoads_response (content : String)
    (hcontent : ∀ c ∈ content.data, c ≠ '"' ∧ c ≠ '\\')
    :
    jsonLoads ("\x7b\"action\": \"response\", \"content\": \"" ++ content ++ "\"\x7d" ++ "\n") =
      some (.obj [("action", .str "response"), ("content", .str content)]) := by
  have hdata : (("\x7b\"action\": \"response\", \"content\": \"" ++ content ++ "\"\x7d" ++ "\n") : String).data =
      '{' :: ('"' :: (['a','c','t','i','o','n'] ++ ('"' :: ':' :: ' ' :: '"' :: (['r','e','s','p','o','n','s','e'] ++ ('"' :: ',' :: ' ' :: '"' :: (['c','o','n','t','e','n','t'] ++ ('"' :: ':' :: ' ' :: '"' :: (content.data ++ ('"' :: '}' :: '\n' :: []))))))))) := by
    show (((['{','"','a','c','t','i','o','n','"',':',' ','"','r','e','s','p','o','n','s','e','"',',',' ','"','c','o','n','t','e','n','t','"',':',' ','"'] ++ content.data) ++ ['"','}']) ++ ('\n' :: [])) = _
    simp
  unfold jsonLoads
  rw [hdata]
  rw [show ('{' :: ('"' :: (['a','c','t','i','o','n'] ++ ('"' :: ':' :: ' ' :: '"' :: (['r','e','s','p','o','n','s','e'] ++ ('"' :: ',' :: ' ' :: '"' :: (['c','o','n','t','e','n','t'] ++ ('"' :: ':' :: ' ' :: '"' :: (content.data ++ ('"' :: '}' :: '\n' :: [])))))))))).length + 1 = (content.data.length + 38) + 1 from by simp <;> omega]
  rw [parseValue.eq_def]
  simp +decide only [skipWs, List.dropWhile, isWsChar, decide_False, decide_True, if_true, if_false, Nat.add_assoc]
  rw [show (content.data.length + 38) = (content.data.length + 36) + 2 from by omega]
  rw [parseMembers_strfield ((content.data.length + 36)) ['a','c','t','i','o','n'] ['r','e','s','p','o','n','s','e']
        ('"' :: (['a','c','t','i','o','n'] ++ ('"' :: ':' :: ' ' :: '"' :: (['r','e','s','p','o','n','s','e'] ++ ('"' :: ',' :: ' ' :: '"' :: (['c','o','n','t','e','n','t'] ++ ('"' :: ':' :: ' ' :: '"' :: (content.data ++ ('"' :: '}' :: '\n' :: [])))))))))
        (',' :: ' ' :: '"' :: (['c','o','n','t','e','n','t'] ++ ('"' :: ':' :: ' ' :: '"' :: (content.data ++ ('"' :: '}' :: '\n' :: [])))))
        true [] rfl (by decide) (by decide)]
  simp +decide only [skipWs, List.dropWhile, isWsChar, decide_False, decide_True, if_true, if_false, Nat.add_assoc]
  rw [show (content.data.length + 37) = (content.data.length + 35) + 2 from by omega]
  rw [parseMembers_strfield ((content.data.length + 35)) ['c','o','n','t','e','n','t'] content.data
        (' ' :: '"' :: (['c','o','n','t','e','n','t'] ++ ('"' :: ':' :: ' ' :: '"' :: (content.data ++ ('"' :: '}' :: '\n' :: [])))))
        ('}' :: '\n' :: [])
        false [(String.mk ['a','c','t','i','o','n'], JsonVal.str (String.mk ['r','e','s','p','o','n','s','e']))] rfl (by decide) hcontent]
  simp +decide only [skipWs, List.dropWhile, isWsChar, decide_False, decide_True, if_true, if_false, Nat.add_assoc]
  rfl

/-- The canonical render body (with the trailing newline the fenced block leaves) parses to its object with every field verbatim. -/
theorem jsonLoads_render (url : String) (wf : String)
    (hurl : ∀ c ∈ url.data, c ≠ '"' ∧ c ≠ '\\')
    (hwf : ∀ c ∈ wf.data, c ≠ '"' ∧ c ≠ '\\')
    :
    jsonLoads ("\x7b\"action\": \"render\", \"url\": \"" ++ url ++ "\", \"wait_for\": \"" ++ wf ++ "\"\x7d" ++ "\n") =
      some (.obj [("action", .str "render"), ("url", .str url), ("wait_for", .str wf)]) := by
  have hdata : (("\x7b\"action\": \"render\", \"url\": \"" ++ url ++ "\", \"wait_for\": \"" ++ wf ++ "\"\x7d" ++ "\n") : String).data =
      '{' :: ('"' :: (['a','c','t','i','o','n'] ++ ('"' :: ':' :: ' ' :: '"' :: (['r','e','n','d','e','r'] ++ ('"' :: ',' :: ' ' :: '"' :: (['u','r','l'] ++ ('"' :: ':' :: ' ' :: '"' :: (url.data ++ ('"' :: ',' :: ' ' :: '"' :: (['w','a','i','t','_','f','o','r'] ++ ('"' :: ':' :: ' ' :: '"' :: (wf.data ++ ('"' :: '}' :: '\n' :: []))))))))))))) := by
    show (((((['{','"','a','c','t','i','o','n','"',':',' ','"','r','e','n','d','e','r','"',',',' ','"','u','r','l','"',':',' ','"'] ++ url.data) ++ ['"',',',' ','"','w','a','i','t','_','f','o','r','"',':',' ','"']) ++ wf.data) ++ ['"','}']) ++ ('\n' :: [])) = _
    simp
  unfold jsonLoads
  rw [hdata]
  rw [show ('{' :: ('"' :: (['a','c','t','i','o','n'] ++ ('"' :: ':' :: ' ' :: '"' :: (['r','e','n','d','e','r'] ++ ('"' :: ',' :: ' ' :: '"' :: (['u','r','l'] ++ ('"' :: ':' :: ' ' :: '"' :: (url.data ++ ('"' :: ',' :: ' ' :: '"' :: (['w','a','i','t','_','f','o','r'] ++ ('"' :: ':' :: ' ' :: '"' :: (wf.data ++ ('"' :: '}' :: '\n' :: [])))))))))))))).length + 1 = (url.data.length + (wf.data.length + 48)) + 1 from by simp <;> omega]
  rw [parseValue.eq_def]
  simp +decide only [skipWs, List.dropWhile, isWsChar, decide_False, decide_True, if_true, if_false, Nat.add_assoc]
  rw [show (url.data.length + (wf.data.length + 48)) = (url.data.length + (wf.data.length + 46)) + 2 from by omega]
  rw [parseMembers_strfield ((url.data.length + (wf.data.length + 46))) ['a','c','t','i','o','n'] ['r','e','n','d','e','r']
        ('"' :: (['a','c','t','i','o','n'] ++ ('"' :: ':' :: ' ' :: '"' :: (['r','e','n','d','e','r'] ++ ('"' :: ',' :: ' ' :: '"' :: (['u','r','l'] ++ ('"' :: ':' :: ' ' :: '"' :: (url.data ++ ('"' :: ',' :: ' ' :: '"' :: (['w','a','i','t','_','f','o','r'] ++ ('"' :: ':' :: ' ' :: '"' :: (wf.data ++ ('"' :: '}' :: '\n' :: [])))))))))))))
        (',' :: ' ' :: '"' :: (['u','r','l'] ++ ('"' :: ':' :: ' ' :: '"' :: (url.data ++ ('"' :: ',' :: ' ' :: '"' :: (['w','a','i','t','_','f','o','r'] ++ ('"' :: ':' :: ' ' :: '"' :: (wf.data ++ ('"' :: '}' :: '\n' :: [])))))))))
        true [] rfl (by decide) (by decide)]
  simp +decide only [skipWs, List.dropWhile, isWsChar, decide_False, decide_True, if_true, if_false, Nat.add_assoc]
  rw [show (url.data.length + (wf.data.length + 47)) = (url.data.length + (wf.data.length + 45)) + 2 from by omega]
  rw [parseMembers_strfield ((url.data.length + (wf.data.length + 45))) ['u','r','l'] url.data
        (' ' :: '"' :: (['u','r','l'] ++ ('"' :: ':' :: ' ' :: '"' :: (url.data ++ ('"' :: ',' :: ' ' :: '"' :: (['w','a','i','t','_','f','o','r'] ++ ('"' :: ':' :: ' ' :: '"' :: (wf.data ++ ('"' :: '}' :: '\n' :: [])))))))))
        (',' :: ' ' :: '"' :: (['w','a','i','t','_','f','o','r'] ++ ('"' :: ':' :: ' ' :: '"' :: (wf.data ++ ('"' :: '}' :: '\n' :: [])))))
        false [(String.mk ['a','c','t','i','o','n'], JsonVal.str (String.mk ['r','e','n','d','e','r']))] rfl (by decide) hurl]
  simp +decide only [skipWs, List.dropWhile, isWsChar, decide_False, decide_True, if_true, if_false, Nat.add_assoc]
  rw [show (url.data.length + (wf.data.length + 46)) = (url.data.length + (wf.data.length + 44)) + 2 from by omega]
  rw [parseMembers_strfield ((url.data.length + (wf.data.length + 44))) ['w','a','i','t','_','f','o','r'] wf.data
        (' ' :: '"' :: (['w','a','i','t','_','f','o','r'] ++ ('"' :: ':' :: ' ' :: '"' :: (wf.data ++ ('"' :: '}' :: '\n' :: [])))))
        ('}' :: '\n' :: [])
        false [(String.mk ['u','r','l'], JsonVal.str (String.mk url.data)), (String.mk ['a','c','t','i','o','n'], JsonVal.str (String.mk ['r','e','n','d','e','r']))] rfl (by decide) hwf]
  simp +decide only [skipWs, List.dropWhile, isWsChar, decide_False, decide_True, if_true, if_false, Nat.add_assoc]
  rfl

/-- The canonical extract body (with the trailing newline the fenced block leaves) parses to its object with every field verbatim. -/
theorem jsonLoads_extract (cid : String) (sel : String)
    (hcid : ∀ c ∈ cid.data, c ≠ '"' ∧ c ≠ '\\')
    (hsel : ∀ c ∈ sel.data, c ≠ '"' ∧ c ≠ '\\')
    :
    jsonLoads ("\x7b\"action\": \"extract\", \"content_id\": \"" ++ cid ++ "\", \"selector\": \"" ++ sel ++ "\"\x7d" ++ "\n") =
      some (.obj [("action", .str "extract"), ("content_id", .str cid), ("selector", .str sel)]) := by
  have hdata : (("\x7b\"action\": \"extract\", \"content_id\": \"" ++ cid ++ "\", \"selector\": \"" ++ sel ++ "\"\x7d" ++ "\n") : String).data =
      '{' :: ('"' :: (['a','c','t','i','o','n'] ++ ('"' :: ':' :: ' ' :: '"' :: (['e','x','t','r','a','c','t'] ++ ('"' :: ',' :: ' ' :: '"' :: (['c','o','n','t','e','n','t','_','i','d'] ++ ('"' :: ':' :: ' ' :: '"' :: (cid.data ++ ('"' :: ',' :: ' ' :: '"' :: (['s','e','l','e','c','t','o','r'] ++ ('"' :: ':' :: ' ' :: '"' :: (sel.data ++ ('"' :: '}' :: '\n' :: []))))))))))))) := by
    show (((((['{','"','a','c','t','i','o','n','"',':',' ','"','e','x','t','r','a','c','t','"',',',' ','"','c','o','n','t','e','n','t','_','i','d','"',':',' ','"'] ++ cid.data) ++ ['"',',',' ','"','s','e','l','e','c','t','o','r','"',':',' ','"']) ++ sel.data) ++ ['"','}']) ++ ('\n' :: [])) = _
    simp
  unfold jsonLoads
  rw [hdata]
  rw [show ('{' :: ('"' :: (['a','c','t','i','o','n'] ++ ('"' :: ':' :: ' ' :: '"' :: (['e','x','t','r','a','c','t'] ++ ('"' :: ',' :: ' ' :: '"' :: (['c','o','n','t','e','n','t','_','i','d'] ++ ('"' :: ':' :: ' ' :: '"' :: (cid.data ++ ('"' :: ',' :: ' ' :: '"' :: (['s','e','l','e','c','t','o','r'] ++ ('"' :: ':' :: ' ' :: '"' :: (sel.data ++ ('"' :: '}' :: '\n' :: [])))))))))))))).length + 1 = (cid.data.length + (sel.data.length + 56)) + 1 from by simp <;> omega]
  rw [parseValue.eq_def]
  simp +decide only [skipWs, List.dropWhile, isWsChar, decide_False, decide_True, if_true, if_false, Nat.add_assoc]
  rw [show (cid.data.length + (sel.data.length + 56)) = (cid.data.length + (sel.data.length + 54)) + 2 from by omega]
  rw [parseMembers_strfield ((cid.data.length + (sel.data.length + 54))) ['a','c','t','i','o','n'] ['e','x','t','r','a','c','t']
        ('"' :: (['a','c','t','i','o','n'] ++ ('"' :: ':' :: ' ' :: '"' :: (['e','x','t','r','a','c','t'] ++ ('"' :: ',' :: ' ' :: '"' :: (['c','o','n','t','e','n','t','_','i','d'] ++ ('"' :: ':' :: ' ' :: '"' :: (cid.data ++ ('"' :: ',' :: ' ' :: '"' :: (['s','e','l','e','c','t','o','r'] ++ ('"' :: ':' :: ' ' :: '"' :: (sel.data ++ ('"' :: '}' :: '\n' :: [])))))))))))))
        (',' :: ' ' :: '"' :: (['c','o','n','t','e','n','t','_','i','d'] ++ ('"' :: ':' :: ' ' :: '"' :: (cid.data ++ ('"' :: ',' :: ' ' :: '"' :: (['s','e','l','e','c','t','o','r'] ++ ('"' :: ':' :: ' ' :: '"' :: (sel.data ++ ('"' :: '}' :: '\n' :: [])))))))))
        true [] rfl (by decide) (by decide)]
  simp +decide only [skipWs, List.dropWhile, isWsChar, decide_False, decide_True, if_true, if_false, Nat.add_assoc]
  rw [show (cid.data.length + (sel.data.length + 55)) = (cid.data.length + (sel.data.length + 53)) + 2 from by omega]
  rw [parseMembers_strfield ((cid.data.length + (sel.data.length + 53))) ['c','o','n','t','e','n','t','_','i','d'] cid.data
        (' ' :: '"' :: (['c','o','n','t','e','n','t','_','i','d'] ++ ('"' :: ':' :: ' ' :: '"' :: (cid.data ++ ('"' :: ',' :: ' ' :: '"' :: (['s','e','l','e','c','t','o','r'] ++ ('"' :: ':' :: ' ' :: '"' :: (sel.data ++ ('"' :: '}' :: '\n' :: [])))))))))
        (',' :: ' ' :: '"' :: (['s','e','l','e','c','t','o','r'] ++ ('"' :: ':' :: ' ' :: '"' :: (sel.data ++ ('"' :: '}' :: '\n' :: [])))))
        false [(String.mk ['a','c','t','i','o','n'], JsonVal.str (String.mk ['e','x','t','r','a','c','t']))] rfl (by decide) hcid]
  simp +decide only [skipWs, List.dropWhile, isWsChar, decide_False, decide_True, if_true, if_false, Nat.add_assoc]
  rw [show (cid.data.length + (sel.data.length + 54)) = (cid.data.length + (sel.data.length + 52)) + 2 from by omega]
  rw [parseMembers_strfield ((cid.data.length + (sel.data.length + 52))) ['s','e','l','e','c','t','o','r'] sel.data
        (' ' :: '"' :: (['s','e','l','e','c','t','o','r'] ++ ('"' :: ':' :: ' ' :: '"' :: (sel.data ++ ('"' :: '}' :: '\n' :: [])))))
        ('}' :: '\n' :: [])
        false [(String.mk ['c','o','n','t','e','n','t','_','i','d'], JsonVal.str (String.mk cid.data)), (String.mk ['a','c','t','i','o','n'], JsonVal.str (String.mk ['e','x','t','r','a','c','t']))] rfl (by decide) hsel]
  simp +decide only [skipWs, List.dropWhile, isWsChar, decide_False, decide_True, if_true, if_false, Nat.add_assoc]
  rfl

/-- Backquote-freedom distributes over concatenation. -/
theorem forall_ne_bq_append {l1 l2 : List Char}
    (h1 : ∀ c ∈ l1, c ≠ bq) (h2 : ∀ c ∈ l2, c ≠ bq) : ∀ c ∈ l1 ++ l2, c ≠ bq := by
  intro c hc
  rcases List.mem_append.mp hc with h | h
  · exact h1 c h
  · exact h2 c h

/-- The experimental decoder on a reply that is one well-formed fenced
JSON block: the fence is split off, the `json` tag line stripped, and
the block strict-parsed. -/
theorem exp_parse_fenced (body : String) (h : ∀ c ∈ body.data, c ≠ bq)
    (v : JsonVal) (hj : jsonLoads (body ++ "\n") = some v) :
    ExpPy.parse_llm_response ("```json\n" ++ body ++ "\n```") = v := by
  have hsplit := splitTicks_fenced body h
  have hstart : pyStartsWith ("json\n" ++ body ++ "\n") "json\n" = true :=
    pyStartsWith_append_left "json\n" ("json\n" ++ body) "\n"
      (by rw [String.data_append]; exact List.prefix_append _ _)
  have hdrop : pyDropStr 5 ("json\n" ++ body ++ "\n") = body ++ "\n" := by
    apply String.ext
    show ("json\n" ++ body ++ "\n").data.drop 5 = (body ++ "\n").data
    have hsplit2 : ("json\n" ++ body ++ "\n").data = "json\n".data ++ (body ++ "\n").data := by
      simp [String.data_append]
    rw [hsplit2, show (5 : Nat) = "json\n".data.length from by decide, List.drop_left]
  have hft : ExpPy.fencedTry ("```json\n" ++ body ++ "\n```") = .ok v := by
    unfold ExpPy.fencedTry
    rw [hsplit]
    simp only [List.get?, hstart, if_true, hdrop, hj]
  simp [ExpPy.parse_llm_response, hft]

/-- Field payloads that need no JSON string escaping and cannot disturb
the code fence: no quote, no backslash, no backquote. -/
def plainField (s : String) : Prop := ∀ c ∈ s.data, c ≠ '"' ∧ c ≠ '\\' ∧ c ≠ bq

/-- C5: for each of the four action shapes, decoding a reply that is one
well-formed fenced JSON code block (the canonical block of the system
prompt, with arbitrary escape-free field payloads) returns the parsed
object with every field — URL, wait-for selector, content ref, CSS
selector, content — verbatim, and that object is interpreted as the
corresponding action variant. -/
theorem claim_C5 (url wf cid sel content : String)
    (hurl : plainField url) (hwf : plainField wf) (hcid : plainField cid)
    (hsel : plainField sel) (hcontent : plainField content) :
    (ExpPy.parse_llm_response
        ("```json\n" ++ ("\x7b\"action\": \"fetch\", \"url\": \"" ++ url ++ "\"\x7d") ++ "\n```") =
       .obj [("action", .str "fetch"), ("url", .str url)] ∧
     action_of_json (.obj [("action", .str "fetch"), ("url", .str url)]) =
       some (.fetch url)) ∧
    (ExpPy.parse_llm_response
        ("```json\n" ++ ("\x7b\"action\": \"render\", \"url\": \"" ++ url ++
          "\", \"wait_for\": \"" ++ wf ++ "\"\x7d") ++ "\n```") =
       .obj [("action", .str "render"), ("url", .str url), ("wait_for", .str wf)] ∧
     action_of_json (.obj [("action", .str "render"), ("url", .str url),
        ("wait_for", .str wf)]) = some (.render url (some wf))) ∧
    (ExpPy.parse_llm_response
        ("```json\n" ++ ("\x7b\"action\": \"extract\", \"content_id\": \"" ++ cid ++
          "\", \"selector\": \"" ++ sel ++ "\"\x7d") ++ "\n```") =
       .obj [("action", .str "extract"), ("content_id", .str cid), ("selector", .str sel)] ∧
     action_of_json (.obj [("action", .str "extract"), ("content_id", .str cid),
        ("selector", .str sel)]) = some (.extract cid sel)) ∧
    (ExpPy.parse_llm_response
        ("```json\n" ++ ("\x7b\"action\": \"response\", \"content\": \"" ++ content ++ "\"\x7d") ++ "\n```") =
       .obj [("action", .str "response"), ("content", .str content)] ∧
     action_of_json (.obj [("action", .str "response"), ("content", .str content)]) =
       some (.respond content)) := by
  have hurl2 : ∀ c ∈ url.data, c ≠ '"' ∧ c ≠ '\\' :=
    fun c hc => ⟨(hurl c hc).1, (hurl c hc).2.1⟩
  have hwf2 : ∀ c ∈ wf.data, c ≠ '"' ∧ c ≠ '\\' :=
    fun c hc => ⟨(hwf c hc).1, (hwf c hc).2.1⟩
  have hcid2 : ∀ c ∈ cid.data, c ≠ '"' ∧ c ≠ '\\' :=
    fun c hc => ⟨(hcid c hc).1, (hcid c hc).2.1⟩
  have hsel2 : ∀ c ∈ sel.data, c ≠ '"' ∧ c ≠ '\\' :=
    fun c hc => ⟨(hsel c hc).1, (hsel c hc).2.1⟩
  have hcontent2 : ∀ c ∈ content.data, c ≠ '"' ∧ c ≠ '\\' :=
    fun c hc => ⟨(hcontent c hc).1, (hcontent c hc).2.1⟩
  refine ⟨⟨?_, ?_⟩, ⟨?_, ?_⟩, ⟨?_, ?_⟩, ⟨?_, ?_⟩⟩
  · apply exp_parse_fenced
    · rw [show (("\x7b\"action\": \"fetch\", \"url\": \"" ++ url ++ "\"\x7d") : String).data =
          "\x7b\"action\": \"fetch\", \"url\": \"".data ++ (url.data ++ "\"\x7d".data) from by
        simp [String.data_append]]
      exact forall_ne_bq_append (by decide)
        (forall_ne_bq_append (fun c hc => (hurl c hc).2.2) (by decide))
    · exact jsonLoads_fetch url hurl2
  · simp [action_of_json, pyGetItem, lookupField, jsonEqStr]
  · apply exp_parse_fenced
    · rw [show (("\x7b\"action\": \"render\", \"url\": \"" ++ url ++
            "\", \"wait_for\": \"" ++ wf ++ "\"\x7d") : String).data =
          "\x7b\"action\": \"render\", \"url\": \"".data ++ (url.data ++
            ("\", \"wait_for\": \"".data ++ (wf.data ++ "\"\x7d".data))) from by
        simp [String.data_append]]
      refine forall_ne_bq_append (by decide) (forall_ne_bq_append
        (fun c hc => (hurl c hc).2.2) (forall_ne_bq_append (by decide)
        (forall_ne_bq_append (fun c hc => (hwf c hc).2.2) (by decide))))
    · exact jsonLoads_render url wf hurl2 hwf2
  · simp [action_of_json, pyGetItem, lookupField, jsonEqStr]
  · apply exp_parse_fenced
    · rw [show (("\x7b\"action\": \"extract\", \"content_id\": \"" ++ cid ++
            "\", \"selector\": \"" ++ sel ++ "\"\x7d") : String).data =
          "\x7b\"action\": \"extract\", \"content_id\": \"".data ++ (cid.data ++
            ("\", \"selector\": \"".data ++ (sel.data ++ "\"\x7d".data))) from by
        simp [String.data_append]]
      refine forall_ne_bq_append (by decide) (forall_ne_bq_append
        (fun c hc => (hcid c hc).2.2) (forall_ne_bq_append (by decide)
        (forall_ne_bq_append (fun c hc => (hsel c hc).2.2) (by decide))))
    · exact jsonLoads_extract cid sel hcid2 hsel2
  · simp [action_of_json, pyGetItem, lookupField, jsonEqStr]
  · apply exp_parse_fenced
    · rw [show (("\x7b\"action\": \"response\", \"content\": \"" ++ content ++ "\"\x7d") : String).data =
          "\x7b\"action\": \"response\", \"content\": \"".data ++ (content.data ++ "\"\x7d".data) from by
        simp [String.data_append]]
      exact forall_ne_bq_append (by decide)
        (forall_ne_bq_append (fun c hc => (hcontent c hc).2.2) (by decide))
    · exact jsonLoads_response content hcontent2
  · simp [action_of_json, pyGetItem, lookupField, jsonEqStr]

/-- Witness for C5 at concrete field values: all four canonical fenced
blocks decode with the fields intact. -/
theorem claim_C5_witness :
    ExpPy.parse_llm_response
        ("```json\n" ++ ("\x7b\"action\": \"fetch\", \"url\": \"" ++ "http://example.test" ++ "\"\x7d") ++ "\n```") =
      .obj [("action", .str "fetch"), ("url", .str "http://example.test")] ∧
    ExpPy.parse_llm_response
        ("```json\n" ++ ("\x7b\"action\": \"render\", \"url\": \"" ++ "http://example.test" ++
          "\", \"wait_for\": \"" ++ ".main" ++ "\"\x7d") ++ "\n```") =
      .obj [("action", .str "render"), ("url", .str "http://example.test"),
            ("wait_for", .str ".main")] ∧
    ExpPy.parse_llm_response
        ("```json\n" ++ ("\x7b\"action\": \"extract\", \"content_id\": \"" ++ "uuid-x" ++
          "\", \"selector\": \"" ++ "h1" ++ "\"\x7d") ++ "\n```") =
      .obj [("action", .str "extract"), ("content_id", .str "uuid-x"), ("selector", .str "h1")] ∧
    ExpPy.parse_llm_response
        ("```json\n" ++ ("\x7b\"action\": \"response\", \"content\": \"" ++ "Paris" ++ "\"\x7d") ++ "\n```") =
      .obj [("action", .str "response"), ("content", .str "Paris")] := by
  have h := claim_C5 "http://example.test" ".main" "uuid-x" "h1" "Paris"
    (by unfold plainField; decide) (by unfold plainField; decide)
    (by unfold plainField; decide) (by unfold plainField; decide)
    (by unfold plainField; decide)
  exact ⟨h.1.1, h.2.1.1, h.2.2.1.1, h.2.2.2.1⟩
